import Mathlib

/-!
Shallow embedding of the payment-instruction parser
(`parseInstruction`, `validateAmount`, `validateDate`, `findAccount`,
`getAccountsInOrder`, `parseInstructionService`) over `List Char` strings.
JS numbers carrying balances are modelled as `Rat`; parsed integer amounts as
`Int`.  `-1`-returning `String.prototype.indexOf` is modelled as an
`Int`-valued search; `String.prototype.substring` with its clamping and
argument-swapping semantics.  The real-time check `isFutureDate` (which reads
the current clock) is abstracted as a boolean oracle passed to the service.
-/

namespace PaymentParser

/-- JS whitespace for `trim` (the relevant ASCII subset). -/
def isJsWs (c : Char) : Bool :=
  c = ' ' || c = '\t' || c = '\n' || c = '\r' || c = '\x0b' || c = '\x0c'

/-- `String.prototype.trim`: remove whitespace from both ends. -/
def jsTrim (s : List Char) : List Char :=
  ((s.dropWhile isJsWs).reverse.dropWhile isJsWs).reverse

/-- `String.prototype.toLowerCase` (ASCII). -/
def jsToLower (s : List Char) : List Char := s.map Char.toLower

/-- `String.prototype.toUpperCase` (ASCII). -/
def jsToUpper (s : List Char) : List Char := s.map Char.toUpper

/-- Auxiliary scan for `indexOf`: first position (counting from `i`) at which
`needle` is a prefix of the remaining haystack, or `-1`. -/
def jsIndexOfAux (needle : List Char) : List Char → Nat → Int
  | [], i => if needle = [] then (i : Int) else -1
  | c :: rest, i =>
    if needle.isPrefixOf (c :: rest) then (i : Int) else jsIndexOfAux needle rest (i + 1)

/-- `String.prototype.indexOf`: index of the first occurrence, `-1` if absent. -/
def jsIndexOf (needle hay : List Char) : Int := jsIndexOfAux needle hay 0

/-- `String.prototype.substring`: clamps negative arguments to `0`, swaps the
endpoints when `start > end`, clamps to the string length. -/
def jsSubstring (s : List Char) (a b : Int) : List Char :=
  ((s.take (max a.toNat b.toNat)).drop (min a.toNat b.toNat))

/-- `String.prototype.substring` with one argument: slice to the end. -/
def jsSubstringFrom (s : List Char) (a : Int) : List Char := s.drop a.toNat

/-- `String.prototype.split(' ')`: split on every single space, keeping empty
segments (`"a  b".split(' ') = ["a","","b"]`, `"".split(' ') = [""]`). -/
def splitOnSpace (s : List Char) : List (List Char) :=
  s.foldr
    (fun c acc =>
      match acc with
      | [] => [[c]]
      | cur :: rest => if c = ' ' then [] :: cur :: rest else (c :: cur) :: rest)
    [[]]

/-- Value of a list of decimal digit characters, most significant first. -/
def digitsVal (ds : List Char) : Nat :=
  ds.foldl (fun acc c => 10 * acc + (c.toNat - 48)) 0

/-- `parseInt(s, 10)`: skip leading whitespace, optional sign, then the longest
prefix of decimal digits; `NaN` (here `none`) when that prefix is empty.  (The
`radix = 10` call sites never trigger the hex-prefix behaviour.) -/
def jsParseInt (s : List Char) : Option Int :=
  let t := s.dropWhile isJsWs
  match t with
  | '+' :: r =>
    let ds := r.takeWhile Char.isDigit
    if ds = [] then none else some ((digitsVal ds : Nat) : Int)
  | '-' :: r =>
    let ds := r.takeWhile Char.isDigit
    if ds = [] then none else some (-((digitsVal ds : Nat) : Int))
  | r =>
    let ds := r.takeWhile Char.isDigit
    if ds = [] then none else some ((digitsVal ds : Nat) : Int)

/-- `Number.prototype.toString` for the integers produced by `parseInt`. -/
def jsIntToString (n : Int) : List Char :=
  if n < 0 then '-' :: Nat.toDigits 10 (-n).toNat else Nat.toDigits 10 n.toNat

/-- Status codes of the taxonomy (also used for `parseError`). -/
inductive StatusCode
  | SY01 | SY02 | SY03 | AM01 | CU01 | CU02 | AC01 | AC02 | AC03 | AP00 | AP01
deriving DecidableEq, Repr

/-- `status` field values. -/
inductive Status
  | failed | pending | successful
deriving DecidableEq, Repr

/-- `type` field values. -/
inductive TxType
  | DEBIT | CREDIT
deriving DecidableEq, Repr

/-- The record returned by `parseInstruction` (JS `null` as `none`). -/
structure ParsedInstruction where
  type : Option TxType
  amount : Option (List Char)
  currency : Option (List Char)
  debit_account : Option (List Char)
  credit_account : Option (List Char)
  execute_by : Option (List Char)
  parseError : Option StatusCode
deriving DecidableEq, Repr

/-- The all-null record returned by `parseInstruction` on a parse error. -/
def parseErrorRecord (e : StatusCode) : ParsedInstruction :=
  { type := none, amount := none, currency := none, debit_account := none
    credit_account := none, execute_by := none, parseError := some e }

/-- Anchor `"debit"`. -/
def kwDebit : List Char := (r"debit").toList
/-- Anchor `"credit"`. -/
def kwCredit : List Char := (r"credit").toList
/-- Anchor `"from account"`. -/
def kwFromAccount : List Char := (r"from account").toList
/-- Anchor `"for credit to account"`. -/
def kwForCredit : List Char := (r"for credit to account").toList
/-- Anchor `"to account"`. -/
def kwToAccount : List Char := (r"to account").toList
/-- Anchor `"for debit from account"`. -/
def kwForDebit : List Char := (r"for debit from account").toList
/-- Anchor `" on "`. -/
def kwOn : List Char := (r" on ").toList

/-- `parseInstruction`: keyword-anchored tokenization of the instruction. -/
def parseInstruction (instruction : List Char) : ParsedInstruction :=
  let normalized := jsTrim (jsToLower instruction)
  let isDebitFormat := kwDebit.isPrefixOf normalized
  let isCreditFormat := kwCredit.isPrefixOf normalized
  if ¬ isDebitFormat ∧ ¬ isCreditFormat then
    parseErrorRecord StatusCode.SY03
  else if isDebitFormat then
    let debitPos := jsIndexOf kwDebit normalized
    let fromAccountPos := jsIndexOf kwFromAccount normalized
    let forCreditPos := jsIndexOf kwForCredit normalized
    let onPos := jsIndexOf kwOn normalized
    if fromAccountPos = -1 ∨ forCreditPos = -1 then
      parseErrorRecord StatusCode.SY01
    else if debitPos ≥ fromAccountPos ∨ fromAccountPos ≥ forCreditPos then
      parseErrorRecord StatusCode.SY02
    else
      let amountCurrencyPart := jsTrim (jsSubstring normalized (debitPos + 5) fromAccountPos)
      let parts := splitOnSpace amountCurrencyPart
      if parts.length < 2 then
        parseErrorRecord StatusCode.SY03
      else
        let amount := jsTrim (parts.getD 0 [])
        let currency := jsToUpper (jsTrim (parts.getD 1 []))
        let debitAccount := jsTrim (jsSubstring normalized (fromAccountPos + 12) forCreditPos)
        let creditAccountEnd := if onPos ≠ -1 then onPos else (normalized.length : Int)
        let creditAccount := jsTrim (jsSubstring normalized (forCreditPos + 21) creditAccountEnd)
        let executeBy := if onPos ≠ -1 then jsTrim (jsSubstringFrom normalized (onPos + 4)) else []
        { type := some TxType.DEBIT
          amount := some amount
          currency := some currency
          debit_account := some debitAccount
          credit_account := some creditAccount
          execute_by := if executeBy = [] then none else some executeBy
          parseError := none }
  else
    let creditPos := jsIndexOf kwCredit normalized
    let toAccountPos := jsIndexOf kwToAccount normalized
    let forDebitPos := jsIndexOf kwForDebit normalized
    let onPos := jsIndexOf kwOn normalized
    if toAccountPos = -1 ∨ forDebitPos = -1 then
      parseErrorRecord StatusCode.SY01
    else if creditPos ≥ toAccountPos ∨ toAccountPos ≥ forDebitPos then
      parseErrorRecord StatusCode.SY02
    else
      let amountCurrencyPart := jsTrim (jsSubstring normalized (creditPos + 6) toAccountPos)
      let parts := splitOnSpace amountCurrencyPart
      if parts.length < 2 then
        parseErrorRecord StatusCode.SY03
      else
        let amount := jsTrim (parts.getD 0 [])
        let currency := jsToUpper (jsTrim (parts.getD 1 []))
        let creditAccount := jsTrim (jsSubstring normalized (toAccountPos + 10) forDebitPos)
        let debitAccountEnd := if onPos ≠ -1 then onPos else (normalized.length : Int)
        let debitAccount := jsTrim (jsSubstring normalized (forDebitPos + 22) debitAccountEnd)
        let executeBy := if onPos ≠ -1 then jsTrim (jsSubstringFrom normalized (onPos + 4)) else []
        { type := some TxType.CREDIT
          amount := some amount
          currency := some currency
          debit_account := some debitAccount
          credit_account := some creditAccount
          execute_by := if executeBy = [] then none else some executeBy
          parseError := none }

/-- Result of `validateAmount`. -/
structure AmountValidation where
  valid : Bool
  value : Option Int
deriving DecidableEq, Repr

/-- `validateAmount`: positive integer in canonical decimal form. -/
def validateAmount (amountStr : List Char) : AmountValidation :=
  if amountStr = [] then { valid := false, value := none }
  else if jsIndexOf ['-'] amountStr ≠ -1 then { valid := false, value := none }
  else if jsIndexOf ['.'] amountStr ≠ -1 then { valid := false, value := none }
  else
    match jsParseInt amountStr with
    | none => { valid := false, value := none }
    | some amountNum =>
      if amountNum ≤ 0 then { valid := false, value := none }
      else if jsIntToString amountNum ≠ amountStr then { valid := false, value := none }
      else { valid := true, value := some amountNum }

/-- Result of `validateDate`. -/
structure DateValidation where
  valid : Bool
  value : Option (List Char)
deriving DecidableEq, Repr

/-- `String.prototype.charAt`: one-character slice (empty when out of range). -/
def jsCharAt (s : List Char) (i : Nat) : List Char := (s.drop i).take 1

/-- `validateDate`: `YYYY-MM-DD` shape with month in `[1,12]`, day in `[1,31]`. -/
def validateDate (dateStr : List Char) : DateValidation :=
  if dateStr = [] then { valid := false, value := none }
  else if dateStr.length ≠ 10 then { valid := false, value := none }
  else if jsCharAt dateStr 4 ≠ ['-'] ∨ jsCharAt dateStr 7 ≠ ['-'] then
    { valid := false, value := none }
  else
    let year := jsSubstring dateStr 0 4
    let month := jsSubstring dateStr 5 7
    let day := jsSubstring dateStr 8 10
    match jsParseInt year, jsParseInt month, jsParseInt day with
    | some _, some monthNum, some dayNum =>
      if monthNum < 1 ∨ monthNum > 12 ∨ dayNum < 1 ∨ dayNum > 31 then
        { valid := false, value := none }
      else { valid := true, value := some dateStr }
    | _, _, _ => { valid := false, value := none }

/-- Caller-supplied account (`balance` is a JS number: modelled as `Rat`). -/
structure Account where
  id : List Char
  balance : Rat
  currency : List Char
deriving DecidableEq, Repr

/-- Output account view: post-state `balance`, pre-state `balance_before`. -/
structure AccountView where
  id : List Char
  balance : Rat
  balance_before : Rat
  currency : List Char
deriving DecidableEq, Repr

/-- `findAccount`: linear scan, first exact match by id. -/
def findAccount (accounts : List Account) (accountId : List Char) : Option Account :=
  match accounts with
  | [] => none
  | a :: rest => if a.id = accountId then some a else findAccount rest accountId

/-- `getAccountsInOrder`: collect, in request order, every account whose id is
the debit or credit id, as a view with `balance_before = balance` and the
currency uppercased. -/
def getAccountsInOrder (accounts : List Account) (debitAccountId creditAccountId : List Char) :
    List AccountView :=
  accounts.filterMap fun a =>
    if a.id = debitAccountId ∨ a.id = creditAccountId then
      some { id := a.id, balance := a.balance, balance_before := a.balance
             currency := jsToUpper a.currency }
    else none

/-- The per-branch `accountsInOrder.map(acc => ({... balance_before: acc.balance ...}))`
re-snapshot used by every failure and pending response. -/
def mkSnapshotViews (views : List AccountView) : List AccountView :=
  views.map fun acc =>
    { id := acc.id, balance := acc.balance, balance_before := acc.balance
      currency := acc.currency }

/-- The success-path `updatedAccounts` map body: debit account loses `amount`,
credit account gains it, anything else keeps its balance. -/
def applyTransfer (debitId creditId : List Char) (amount : Int) (acc : AccountView) :
    AccountView :=
  let balanceBefore := acc.balance
  let newBalance :=
    if acc.id = debitId then balanceBefore - (amount : Rat)
    else if acc.id = creditId then balanceBefore + (amount : Rat)
    else balanceBefore
  { id := acc.id, balance := newBalance, balance_before := balanceBefore
    currency := acc.currency }

/-! The `PaymentMessages` catalog (`src/messages/payment.js`). -/

namespace PaymentMessages

def TRANSACTION_SUCCESSFUL : List Char := (r"Transaction executed successfully").toList
def TRANSACTION_PENDING : List Char := (r"Transaction scheduled for future execution").toList
def INVALID_AMOUNT : List Char := (r"Invalid amount. Amount must be a positive integer").toList
def CURRENCY_MISMATCH : List Char :=
  (r"Account currency mismatch. Both accounts must have the same currency").toList
def UNSUPPORTED_CURRENCY : List Char :=
  (r"Unsupported currency. Only NGN, USD, GBP, and GHS are supported").toList
def INSUFFICIENT_FUNDS : List Char := (r"Insufficient funds in debit account").toList
def SAME_ACCOUNT_ERROR : List Char := (r"Debit and credit accounts cannot be the same").toList
def ACCOUNT_NOT_FOUND : List Char := (r"Account not found").toList
def MISSING_KEYWORDS : List Char := (r"Missing required keywords").toList
def INVALID_KEYWORD_ORDER : List Char := (r"Invalid keyword order").toList
def MALFORMED_INSTRUCTION : List Char :=
  (r"Malformed instruction: unable to parse keywords").toList

end PaymentMessages

/-- `SUPPORTED_CURRENCIES = ['NGN', 'USD', 'GBP', 'GHS']`. -/
def SUPPORTED_CURRENCIES : List (List Char) :=
  [(r"NGN").toList, (r"USD").toList, (r"GBP").toList, (r"GHS").toList]

/-- The service's response record. -/
structure TransactionResult where
  type : Option TxType
  amount : Option Int
  currency : Option (List Char)
  debit_account : Option (List Char)
  credit_account : Option (List Char)
  execute_by : Option (List Char)
  status : Status
  status_reason : List Char
  status_code : StatusCode
  accounts : List AccountView
deriving DecidableEq, Repr

/-- Common shape of all the post-tokenization failure responses. -/
def failResponse (parsed : ParsedInstruction) (amount : Option Int)
    (currency : Option (List Char)) (code : StatusCode) (reason : List Char)
    (views : List AccountView) : TransactionResult :=
  { type := parsed.type
    amount := amount
    currency := currency
    debit_account := parsed.debit_account
    credit_account := parsed.credit_account
    execute_by := parsed.execute_by
    status := Status.failed
    status_reason := reason
    status_code := code
    accounts := views }

/-- Lines 612-698 of the service: funds check (immediate execution only), then
the pending or successful response.  `isPending` is the flag computed from the
optional date. -/
def finishTransaction (accounts : List Account) (parsed : ParsedInstruction) (amount : Int)
    (currencyUpper : List Char) (debitAccount creditAccount : Account) (isPending : Bool) :
    TransactionResult :=
  if isPending = false ∧ debitAccount.balance < (amount : Rat) then
    failResponse parsed (some amount) (some currencyUpper) StatusCode.AC01
      PaymentMessages.INSUFFICIENT_FUNDS
      (mkSnapshotViews (getAccountsInOrder accounts (parsed.debit_account.getD [])
        (parsed.credit_account.getD [])))
  else
    let accountsInOrder :=
      getAccountsInOrder accounts (parsed.debit_account.getD []) (parsed.credit_account.getD [])
    if isPending then
      { type := parsed.type
        amount := some amount
        currency := some currencyUpper
        debit_account := parsed.debit_account
        credit_account := parsed.credit_account
        execute_by := parsed.execute_by
        status := Status.pending
        status_reason := PaymentMessages.TRANSACTION_PENDING
        status_code := StatusCode.AP01
        accounts := mkSnapshotViews accountsInOrder }
    else
      { type := parsed.type
        amount := some amount
        currency := some currencyUpper
        debit_account := parsed.debit_account
        credit_account := parsed.credit_account
        execute_by := parsed.execute_by
        status := Status.successful
        status_reason := PaymentMessages.TRANSACTION_SUCCESSFUL
        status_code := StatusCode.AP00
        accounts := accountsInOrder.map (applyTransfer debitAccount.id creditAccount.id amount) }

/-- `parseInstructionService`: the full validation/execution pipeline.
`isFuture` abstracts `isFutureDate` (which compares the date token against the
real-time clock). -/
def parseInstructionService (isFuture : List Char → Bool) (accounts : List Account)
    (instruction : List Char) : TransactionResult :=
  let parsed := parseInstruction instruction
  if parsed.parseError = some StatusCode.SY03 then
    { type := none, amount := none, currency := none, debit_account := none
      credit_account := none, execute_by := none, status := Status.failed
      status_reason := PaymentMessages.MALFORMED_INSTRUCTION
      status_code := StatusCode.SY03, accounts := [] }
  else if parsed.parseError = some StatusCode.SY01 ∨ parsed.parseError = some StatusCode.SY02 then
    { type := parsed.type
      amount := parsed.amount.bind jsParseInt
      currency := parsed.currency
      debit_account := parsed.debit_account
      credit_account := parsed.credit_account
      execute_by := parsed.execute_by
      status := Status.failed
      status_reason :=
        if parsed.parseError = some StatusCode.SY01 then PaymentMessages.MISSING_KEYWORDS
        else PaymentMessages.INVALID_KEYWORD_ORDER
      status_code := parsed.parseError.getD StatusCode.SY01
      accounts := [] }
  else
    if (validateAmount (parsed.amount.getD [])).valid = false then
      failResponse parsed none parsed.currency StatusCode.AM01 PaymentMessages.INVALID_AMOUNT
        (mkSnapshotViews (getAccountsInOrder accounts (parsed.debit_account.getD [])
          (parsed.credit_account.getD [])))
    else
      let amount := (validateAmount (parsed.amount.getD [])).value.getD 0
      let currencyUpper := jsToUpper (parsed.currency.getD [])
      if SUPPORTED_CURRENCIES.contains currencyUpper = false then
        failResponse parsed (some amount) parsed.currency StatusCode.CU02
          PaymentMessages.UNSUPPORTED_CURRENCY
          (mkSnapshotViews (getAccountsInOrder accounts (parsed.debit_account.getD [])
            (parsed.credit_account.getD [])))
      else
        match findAccount accounts (parsed.debit_account.getD []),
            findAccount accounts (parsed.credit_account.getD []) with
        | none, _ =>
          failResponse parsed (some amount) (some currencyUpper) StatusCode.AC03
            PaymentMessages.ACCOUNT_NOT_FOUND
            (mkSnapshotViews (getAccountsInOrder accounts (parsed.debit_account.getD [])
              (parsed.credit_account.getD [])))
        | some _, none =>
          failResponse parsed (some amount) (some currencyUpper) StatusCode.AC03
            PaymentMessages.ACCOUNT_NOT_FOUND
            (mkSnapshotViews (getAccountsInOrder accounts (parsed.debit_account.getD [])
              (parsed.credit_account.getD [])))
        | some debitAccount, some creditAccount =>
          if debitAccount.id = creditAccount.id then
            failResponse parsed (some amount) (some currencyUpper) StatusCode.AC02
              PaymentMessages.SAME_ACCOUNT_ERROR
              (mkSnapshotViews (getAccountsInOrder accounts (parsed.debit_account.getD [])
                (parsed.credit_account.getD [])))
          else if jsToUpper debitAccount.currency ≠ jsToUpper creditAccount.currency then
            failResponse parsed (some amount) (some currencyUpper) StatusCode.CU01
              PaymentMessages.CURRENCY_MISMATCH
              (mkSnapshotViews (getAccountsInOrder accounts (parsed.debit_account.getD [])
                (parsed.credit_account.getD [])))
          else if currencyUpper ≠ jsToUpper debitAccount.currency then
            failResponse parsed (some amount) (some currencyUpper) StatusCode.CU01
              PaymentMessages.CURRENCY_MISMATCH
              (mkSnapshotViews (getAccountsInOrder accounts (parsed.debit_account.getD [])
                (parsed.credit_account.getD [])))
          else
            match parsed.execute_by with
            | some d =>
              if (validateDate d).valid = false then
                failResponse parsed (some amount) (some currencyUpper) StatusCode.SY03
                  PaymentMessages.MALFORMED_INSTRUCTION
                  (mkSnapshotViews (getAccountsInOrder accounts (parsed.debit_account.getD [])
                    (parsed.credit_account.getD [])))
              else
                finishTransaction accounts parsed amount currencyUpper debitAccount creditAccount
                  (isFuture d)
            | none =>
              finishTransaction accounts parsed amount currencyUpper debitAccount creditAccount
                false

/-! ### Helper lemmas about the string primitives and resolvers -/

/-- Membership in a trimmed string implies membership in the original. -/
theorem mem_of_mem_jsTrim {c : Char} {s : List Char} (h : c ∈ jsTrim s) : c ∈ s := by
  unfold jsTrim at h
  rw [List.mem_reverse] at h
  have h1 := (List.dropWhile_sublist (l := (s.dropWhile isJsWs).reverse) (p := isJsWs)).subset h
  rw [List.mem_reverse] at h1
  exact (List.dropWhile_sublist (l := s) (p := isJsWs)).subset h1

/-- Membership in a substring implies membership in the original. -/
theorem mem_of_mem_jsSubstring {c : Char} {s : List Char} {a b : Int}
    (h : c ∈ jsSubstring s a b) : c ∈ s := by
  unfold jsSubstring at h
  exact (List.take_sublist _ _).subset ((List.drop_sublist _ _).subset h)

/-- Lowercasing never yields an ASCII uppercase letter. -/
theorem isUpper_toLower_eq_false (c : Char) : (Char.toLower c).isUpper = false := by
  have k65 : ((65 : UInt32) ≤ c.val) ↔ 65 ≤ c.toNat := Iff.rfl
  have k90 : (c.val ≤ (90 : UInt32)) ↔ c.toNat ≤ 90 := Iff.rfl
  unfold Char.toLower
  by_cases h : c.toNat ≥ 65 ∧ c.toNat ≤ 90
  · rw [if_pos h]
    obtain ⟨h1, h2⟩ := h
    generalize c.toNat = n at h1 h2
    interval_cases n <;> decide
  · rw [if_neg h]
    unfold Char.isUpper
    rw [Bool.and_eq_false_iff]
    by_cases h65 : 65 ≤ c.toNat
    · right
      rw [decide_eq_false_iff_not]
      intro hle
      exact h ⟨h65, k90.mp hle⟩
    · left
      rw [decide_eq_false_iff_not]
      intro hge
      exact h65 (k65.mp hge)

/-- Every character of a lowercased string is non-uppercase. -/
theorem mem_jsToLower_not_upper {c : Char} {s : List Char} (h : c ∈ jsToLower s) :
    c.isUpper = false := by
  unfold jsToLower at h
  obtain ⟨d, _, rfl⟩ := List.mem_map.mp h
  exact isUpper_toLower_eq_false d

/-- `findAccount` returns an element of the list whose id is the searched id. -/
theorem findAccount_some {accounts : List Account} {i : List Char} {a : Account}
    (h : findAccount accounts i = some a) : a ∈ accounts ∧ a.id = i := by
  induction accounts with
  | nil => simp [findAccount] at h
  | cons b rest ih =>
    rw [findAccount] at h
    by_cases hb : b.id = i
    · rw [if_pos hb] at h
      obtain rfl : b = a := by injection h
      exact ⟨List.mem_cons_self _ _, hb⟩
    · rw [if_neg hb] at h
      obtain ⟨h1, h2⟩ := ih h
      exact ⟨List.mem_cons_of_mem _ h1, h2⟩

/-- `findAccount` fails when no account carries the searched id. -/
theorem findAccount_eq_none {accounts : List Account} {i : List Char}
    (h : ∀ b ∈ accounts, b.id ≠ i) : findAccount accounts i = none := by
  induction accounts with
  | nil => rfl
  | cons b rest ih =>
    rw [findAccount, if_neg (h b (List.mem_cons_self _ _))]
    exact ih fun x hx => h x (List.mem_cons_of_mem _ hx)

/-- Unfolding of membership in `getAccountsInOrder`. -/
theorem mem_getAccountsInOrder {accounts : List Account} {d c : List Char} {v : AccountView} :
    v ∈ getAccountsInOrder accounts d c ↔
      ∃ a ∈ accounts, (a.id = d ∨ a.id = c) ∧
        v = { id := a.id, balance := a.balance, balance_before := a.balance
              currency := jsToUpper a.currency } := by
  unfold getAccountsInOrder
  rw [List.mem_filterMap]
  constructor
  · rintro ⟨a, ha, hv⟩
    by_cases hid : a.id = d ∨ a.id = c
    · rw [if_pos hid] at hv
      exact ⟨a, ha, hid, (Option.some_injective _ hv).symm⟩
    · rw [if_neg hid] at hv
      cases hv
  · rintro ⟨a, ha, hid, rfl⟩
    exact ⟨a, ha, by rw [if_pos hid]⟩

/-- `getAccountsInOrder` traverses the account list in order: its ids are the
ids of the input accounts whose id matches either target, in input order. -/
theorem getAccountsInOrder_ids (accounts : List Account) (d c : List Char) :
    (getAccountsInOrder accounts d c).map AccountView.id
      = (accounts.filter fun a => a.id = d ∨ a.id = c).map Account.id := by
  induction accounts with
  | nil => rfl
  | cons a rest ih =>
    unfold getAccountsInOrder at *
    rw [List.filterMap_cons, List.filter_cons]
    by_cases hid : a.id = d ∨ a.id = c
    · rw [if_pos hid]
      simp only [decide_eq_true_eq, hid, if_pos, List.map_cons, ih]
    · rw [if_neg hid]
      simp only [decide_eq_true_eq, hid, if_neg, List.map_cons, ih]
      simp [hid]

/-- Every view emitted by `getAccountsInOrder` snapshots its source balance. -/
theorem getAccountsInOrder_balance_before {accounts : List Account} {d c : List Char}
    {v : AccountView} (h : v ∈ getAccountsInOrder accounts d c) :
    v.balance_before = v.balance := by
  obtain ⟨a, _, _, rfl⟩ := mem_getAccountsInOrder.mp h
  rfl

/-- Re-snapshotting sets `balance_before` to the current balance. -/
theorem mkSnapshotViews_balance_before {l : List AccountView} {v : AccountView}
    (h : v ∈ mkSnapshotViews l) : v.balance_before = v.balance := by
  obtain ⟨u, _, rfl⟩ := List.mem_map.mp h
  rfl

/-- Re-snapshotting preserves the id sequence. -/
theorem mkSnapshotViews_ids (l : List AccountView) :
    (mkSnapshotViews l).map AccountView.id = l.map AccountView.id := by
  unfold mkSnapshotViews
  rw [List.map_map]
  rfl

/-- `applyTransfer` preserves the id and snapshots the pre-balance. -/
theorem applyTransfer_id (debitId creditId : List Char) (amount : Int) (acc : AccountView) :
    (applyTransfer debitId creditId amount acc).id = acc.id := rfl

/-- `parseInstruction` either reports one of the three syntax errors with all
fields null, or reports no error with the four mandatory tokens present; the
account tokens are built from characters of the lowercased instruction. -/
theorem parseInstruction_shape (instr : List Char) :
    (∃ e, (e = StatusCode.SY01 ∨ e = StatusCode.SY02 ∨ e = StatusCode.SY03) ∧
        parseInstruction instr = parseErrorRecord e)
    ∨ ((parseInstruction instr).parseError = none ∧
        ∃ a cu d cr, (parseInstruction instr).amount = some a ∧
          (parseInstruction instr).currency = some cu ∧
          (parseInstruction instr).debit_account = some d ∧
          (parseInstruction instr).credit_account = some cr ∧
          (∀ ch ∈ d, ch ∈ jsToLower instr) ∧ (∀ ch ∈ cr, ch ∈ jsToLower instr)) := by
  generalize hP : parseInstruction instr = P
  simp only [parseInstruction] at hP
  repeat' split at hP
  all_goals subst hP
  all_goals first
  | exact Or.inl ⟨_, Or.inl rfl, rfl⟩
  | exact Or.inl ⟨_, Or.inr (Or.inl rfl), rfl⟩
  | exact Or.inl ⟨_, Or.inr (Or.inr rfl), rfl⟩
  | exact Or.inr ⟨rfl, _, _, _, _, rfl, rfl, rfl, rfl,
      fun ch hch => mem_of_mem_jsTrim (mem_of_mem_jsSubstring (mem_of_mem_jsTrim hch)),
      fun ch hch => mem_of_mem_jsTrim (mem_of_mem_jsSubstring (mem_of_mem_jsTrim hch))⟩

/-- `validateAmount` yields either a rejection or a positive integer value. -/
theorem validateAmount_shape (s : List Char) :
    validateAmount s = { valid := false, value := none }
      ∨ ∃ n : Int, 0 < n ∧ validateAmount s = { valid := true, value := some n } := by
  unfold validateAmount
  repeat' split
  all_goals first
  | exact Or.inl rfl
  | (refine Or.inr ⟨_, ?_, rfl⟩
     omega)

/-- A valid amount is a positive integer value. -/
theorem validateAmount_valid {s : List Char} (h : (validateAmount s).valid = true) :
    ∃ n : Int, (validateAmount s).value = some n ∧ 0 < n := by
  rcases validateAmount_shape s with hs | ⟨n, hn, hs⟩
  · rw [hs] at h
    cases h
  · rw [hs]
    exact ⟨n, rfl, hn⟩

/-! ### Per-stage characterizations of `parseInstructionService`

One lemma per early-return branch of the pipeline, each assuming exactly the
conditions under which the source reaches that branch. -/

/-- Tokenization failure `SY03` short-circuits the service. -/
theorem service_eq_sy03 (isF : List Char → Bool) (accounts : List Account)
    (instruction : List Char)
    (h : (parseInstruction instruction).parseError = some StatusCode.SY03) :
    parseInstructionService isF accounts instruction =
      { type := none, amount := none, currency := none, debit_account := none
        credit_account := none, execute_by := none, status := Status.failed
        status_reason := PaymentMessages.MALFORMED_INSTRUCTION
        status_code := StatusCode.SY03, accounts := [] } := by
  simp [parseInstructionService, h]

/-- Tokenization failures `SY01`/`SY02` short-circuit the service. -/
theorem service_eq_sykw (isF : List Char → Bool) (accounts : List Account)
    (instruction : List Char) (e : StatusCode)
    (he : e = StatusCode.SY01 ∨ e = StatusCode.SY02)
    (h : (parseInstruction instruction).parseError = some e) :
    parseInstructionService isF accounts instruction =
      { type := (parseInstruction instruction).type
        amount := ((parseInstruction instruction).amount).bind jsParseInt
        currency := (parseInstruction instruction).currency
        debit_account := (parseInstruction instruction).debit_account
        credit_account := (parseInstruction instruction).credit_account
        execute_by := (parseInstruction instruction).execute_by
        status := Status.failed
        status_reason :=
          if e = StatusCode.SY01 then PaymentMessages.MISSING_KEYWORDS
          else PaymentMessages.INVALID_KEYWORD_ORDER
        status_code := e
        accounts := [] } := by
  rcases he with rfl | rfl <;> simp [parseInstructionService, h]

/-- Amount-validation failure produces the `AM01` response. -/
theorem service_eq_am01 (isF : List Char → Bool) (accounts : List Account)
    (instruction : List Char)
    (h0 : (parseInstruction instruction).parseError = none)
    (h1 : (validateAmount ((parseInstruction instruction).amount.getD [])).valid = false) :
    parseInstructionService isF accounts instruction =
      failResponse (parseInstruction instruction) none (parseInstruction instruction).currency
        StatusCode.AM01 PaymentMessages.INVALID_AMOUNT
        (mkSnapshotViews (getAccountsInOrder accounts
          ((parseInstruction instruction).debit_account.getD [])
          ((parseInstruction instruction).credit_account.getD []))) := by
  simp [parseInstructionService, h0, h1]

/-- Unsupported-currency failure produces the `CU02` response. -/
theorem service_eq_cu02 (isF : List Char → Bool) (accounts : List Account)
    (instruction : List Char)
    (h0 : (parseInstruction instruction).parseError = none)
    (h1 : (validateAmount ((parseInstruction instruction).amount.getD [])).valid = true)
    (h2 : SUPPORTED_CURRENCIES.contains
        (jsToUpper ((parseInstruction instruction).currency.getD [])) = false) :
    parseInstructionService isF accounts instruction =
      failResponse (parseInstruction instruction)
        (some ((validateAmount ((parseInstruction instruction).amount.getD [])).value.getD 0))
        (parseInstruction instruction).currency
        StatusCode.CU02 PaymentMessages.UNSUPPORTED_CURRENCY
        (mkSnapshotViews (getAccountsInOrder accounts
          ((parseInstruction instruction).debit_account.getD [])
          ((parseInstruction instruction).credit_account.getD []))) := by
  have h2' : jsToUpper ((parseInstruction instruction).currency.getD [])
      ∉ SUPPORTED_CURRENCIES := by simpa using h2
  simp [parseInstructionService, h0, h1, h2']

/-- A missing account produces the `AC03` response. -/
theorem service_eq_ac03 (isF : List Char → Bool) (accounts : List Account)
    (instruction : List Char)
    (h0 : (parseInstruction instruction).parseError = none)
    (h1 : (validateAmount ((parseInstruction instruction).amount.getD [])).valid = true)
    (h2 : SUPPORTED_CURRENCIES.contains
        (jsToUpper ((parseInstruction instruction).currency.getD [])) = true)
    (h3 : findAccount accounts ((parseInstruction instruction).debit_account.getD []) = none
        ∨ findAccount accounts ((parseInstruction instruction).credit_account.getD []) = none) :
    parseInstructionService isF accounts instruction =
      failResponse (parseInstruction instruction)
        (some ((validateAmount ((parseInstruction instruction).amount.getD [])).value.getD 0))
        (some (jsToUpper ((parseInstruction instruction).currency.getD [])))
        StatusCode.AC03 PaymentMessages.ACCOUNT_NOT_FOUND
        (mkSnapshotViews (getAccountsInOrder accounts
          ((parseInstruction instruction).debit_account.getD [])
          ((parseInstruction instruction).credit_account.getD []))) := by
  have h2' : jsToUpper ((parseInstruction instruction).currency.getD [])
      ∈ SUPPORTED_CURRENCIES := by simpa using h2
  rcases h3 with h3 | h3
  · simp [parseInstructionService, h0, h1, h2', h3]
  · cases hd : findAccount accounts ((parseInstruction instruction).debit_account.getD []) <;>
      simp [parseInstructionService, h0, h1, h2', h3, hd]

/-- Identical debit and credit accounts produce the `AC02` response. -/
theorem service_eq_ac02 (isF : List Char → Bool) (accounts : List Account)
    (instruction : List Char) (dAcc cAcc : Account)
    (h0 : (parseInstruction instruction).parseError = none)
    (h1 : (validateAmount ((parseInstruction instruction).amount.getD [])).valid = true)
    (h2 : SUPPORTED_CURRENCIES.contains
        (jsToUpper ((parseInstruction instruction).currency.getD [])) = true)
    (hd : findAccount accounts ((parseInstruction instruction).debit_account.getD []) = some dAcc)
    (hc : findAccount accounts ((parseInstruction instruction).credit_account.getD []) = some cAcc)
    (heq : dAcc.id = cAcc.id) :
    parseInstructionService isF accounts instruction =
      failResponse (parseInstruction instruction)
        (some ((validateAmount ((parseInstruction instruction).amount.getD [])).value.getD 0))
        (some (jsToUpper ((parseInstruction instruction).currency.getD [])))
        StatusCode.AC02 PaymentMessages.SAME_ACCOUNT_ERROR
        (mkSnapshotViews (getAccountsInOrder accounts
          ((parseInstruction instruction).debit_account.getD [])
          ((parseInstruction instruction).credit_account.getD []))) := by
  have h2' : jsToUpper ((parseInstruction instruction).currency.getD [])
      ∈ SUPPORTED_CURRENCIES := by simpa using h2
  simp [parseInstructionService, h0, h1, h2', hd, hc, heq]

/-- Account-currency mismatch produces the first `CU01` response. -/
theorem service_eq_cu01_accounts (isF : List Char → Bool) (accounts : List Account)
    (instruction : List Char) (dAcc cAcc : Account)
    (h0 : (parseInstruction instruction).parseError = none)
    (h1 : (validateAmount ((parseInstruction instruction).amount.getD [])).valid = true)
    (h2 : SUPPORTED_CURRENCIES.contains
        (jsToUpper ((parseInstruction instruction).currency.getD [])) = true)
    (hd : findAccount accounts ((parseInstruction instruction).debit_account.getD []) = some dAcc)
    (hc : findAccount accounts ((parseInstruction instruction).credit_account.getD []) = some cAcc)
    (hne : ¬ dAcc.id = cAcc.id)
    (hcm : ¬ jsToUpper dAcc.currency = jsToUpper cAcc.currency) :
    parseInstructionService isF accounts instruction =
      failResponse (parseInstruction instruction)
        (some ((validateAmount ((parseInstruction instruction).amount.getD [])).value.getD 0))
        (some (jsToUpper ((parseInstruction instruction).currency.getD [])))
        StatusCode.CU01 PaymentMessages.CURRENCY_MISMATCH
        (mkSnapshotViews (getAccountsInOrder accounts
          ((parseInstruction instruction).debit_account.getD [])
          ((parseInstruction instruction).credit_account.getD []))) := by
  have h2' : jsToUpper ((parseInstruction instruction).currency.getD [])
      ∈ SUPPORTED_CURRENCIES := by simpa using h2
  simp [parseInstructionService, h0, h1, h2', hd, hc, hne, hcm]

/-- Instruction-vs-account currency mismatch produces the second `CU01`
response. -/
theorem service_eq_cu01_instruction (isF : List Char → Bool) (accounts : List Account)
    (instruction : List Char) (dAcc cAcc : Account)
    (h0 : (parseInstruction instruction).parseError = none)
    (h1 : (validateAmount ((parseInstruction instruction).amount.getD [])).valid = true)
    (h2 : SUPPORTED_CURRENCIES.contains
        (jsToUpper ((parseInstruction instruction).currency.getD [])) = true)
    (hd : findAccount accounts ((parseInstruction instruction).debit_account.getD []) = some dAcc)
    (hc : findAccount accounts ((parseInstruction instruction).credit_account.getD []) = some cAcc)
    (hne : ¬ dAcc.id = cAcc.id)
    (hcm : jsToUpper dAcc.currency = jsToUpper cAcc.currency)
    (hic : ¬ jsToUpper ((parseInstruction instruction).currency.getD [])
        = jsToUpper dAcc.currency) :
    parseInstructionService isF accounts instruction =
      failResponse (parseInstruction instruction)
        (some ((validateAmount ((parseInstruction instruction).amount.getD [])).value.getD 0))
        (some (jsToUpper ((parseInstruction instruction).currency.getD [])))
        StatusCode.CU01 PaymentMessages.CURRENCY_MISMATCH
        (mkSnapshotViews (getAccountsInOrder accounts
          ((parseInstruction instruction).debit_account.getD [])
          ((parseInstruction instruction).credit_account.getD []))) := by
  have h2' : jsToUpper ((parseInstruction instruction).currency.getD [])
      ∈ SUPPORTED_CURRENCIES := by simpa using h2
  have hic' : ¬ jsToUpper ((parseInstruction instruction).currency.getD [])
      = jsToUpper cAcc.currency := by
    rw [← hcm]
    exact hic
  simp [parseInstructionService, h0, h1, h2', hd, hc, hne, hcm, hic, hic']

/-- An invalid date token produces the late `SY03` response (with resolved
accounts). -/
theorem service_eq_sy03_date (isF : List Char → Bool) (accounts : List Account)
    (instruction : List Char) (dAcc cAcc : Account) (d : List Char)
    (h0 : (parseInstruction instruction).parseError = none)
    (h1 : (validateAmount ((parseInstruction instruction).amount.getD [])).valid = true)
    (h2 : SUPPORTED_CURRENCIES.contains
        (jsToUpper ((parseInstruction instruction).currency.getD [])) = true)
    (hd : findAccount accounts ((parseInstruction instruction).debit_account.getD []) = some dAcc)
    (hc : findAccount accounts ((parseInstruction instruction).credit_account.getD []) = some cAcc)
    (hne : ¬ dAcc.id = cAcc.id)
    (hcm : jsToUpper dAcc.currency = jsToUpper cAcc.currency)
    (hic : jsToUpper ((parseInstruction instruction).currency.getD [])
        = jsToUpper dAcc.currency)
    (hx : (parseInstruction instruction).execute_by = some d)
    (hdv : (validateDate d).valid = false) :
    parseInstructionService isF accounts instruction =
      failResponse (parseInstruction instruction)
        (some ((validateAmount ((parseInstruction instruction).amount.getD [])).value.getD 0))
        (some (jsToUpper ((parseInstruction instruction).currency.getD [])))
        StatusCode.SY03 PaymentMessages.MALFORMED_INSTRUCTION
        (mkSnapshotViews (getAccountsInOrder accounts
          ((parseInstruction instruction).debit_account.getD [])
          ((parseInstruction instruction).credit_account.getD []))) := by
  have h2' : jsToUpper ((parseInstruction instruction).currency.getD [])
      ∈ SUPPORTED_CURRENCIES := by simpa using h2
  have hic' : jsToUpper ((parseInstruction instruction).currency.getD [])
      = jsToUpper cAcc.currency := hic.trans hcm
  have h2c : jsToUpper cAcc.currency ∈ SUPPORTED_CURRENCIES := by
    rw [← hic']
    exact h2'
  simp [parseInstructionService, h0, h1, h2', h2c, hd, hc, hne, hcm, hic, hic', hx, hdv]

/-- With a valid date token, the service defers to `finishTransaction` with the
future-date classification of that token. -/
theorem service_eq_finish_date (isF : List Char → Bool) (accounts : List Account)
    (instruction : List Char) (dAcc cAcc : Account) (d : List Char)
    (h0 : (parseInstruction instruction).parseError = none)
    (h1 : (validateAmount ((parseInstruction instruction).amount.getD [])).valid = true)
    (h2 : SUPPORTED_CURRENCIES.contains
        (jsToUpper ((parseInstruction instruction).currency.getD [])) = true)
    (hd : findAccount accounts ((parseInstruction instruction).debit_account.getD []) = some dAcc)
    (hc : findAccount accounts ((parseInstruction instruction).credit_account.getD []) = some cAcc)
    (hne : ¬ dAcc.id = cAcc.id)
    (hcm : jsToUpper dAcc.currency = jsToUpper cAcc.currency)
    (hic : jsToUpper ((parseInstruction instruction).currency.getD [])
        = jsToUpper dAcc.currency)
    (hx : (parseInstruction instruction).execute_by = some d)
    (hdv : (validateDate d).valid = true) :
    parseInstructionService isF accounts instruction =
      finishTransaction accounts (parseInstruction instruction)
        ((validateAmount ((parseInstruction instruction).amount.getD [])).value.getD 0)
        (jsToUpper ((parseInstruction instruction).currency.getD [])) dAcc cAcc (isF d) := by
  have h2' : jsToUpper ((parseInstruction instruction).currency.getD [])
      ∈ SUPPORTED_CURRENCIES := by simpa using h2
  have hic' : jsToUpper ((parseInstruction instruction).currency.getD [])
      = jsToUpper cAcc.currency := hic.trans hcm
  have h2c : jsToUpper cAcc.currency ∈ SUPPORTED_CURRENCIES := by
    rw [← hic']
    exact h2'
  simp [parseInstructionService, h0, h1, h2', h2c, hd, hc, hne, hcm, hic, hic', hx, hdv]

/-- With no date token, the service defers to `finishTransaction` with
`isPending = false`. -/
theorem service_eq_finish_nodate (isF : List Char → Bool) (accounts : List Account)
    (instruction : List Char) (dAcc cAcc : Account)
    (h0 : (parseInstruction instruction).parseError = none)
    (h1 : (validateAmount ((parseInstruction instruction).amount.getD [])).valid = true)
    (h2 : SUPPORTED_CURRENCIES.contains
        (jsToUpper ((parseInstruction instruction).currency.getD [])) = true)
    (hd : findAccount accounts ((parseInstruction instruction).debit_account.getD []) = some dAcc)
    (hc : findAccount accounts ((parseInstruction instruction).credit_account.getD []) = some cAcc)
    (hne : ¬ dAcc.id = cAcc.id)
    (hcm : jsToUpper dAcc.currency = jsToUpper cAcc.currency)
    (hic : jsToUpper ((parseInstruction instruction).currency.getD [])
        = jsToUpper dAcc.currency)
    (hx : (parseInstruction instruction).execute_by = none) :
    parseInstructionService isF accounts instruction =
      finishTransaction accounts (parseInstruction instruction)
        ((validateAmount ((parseInstruction instruction).amount.getD [])).value.getD 0)
        (jsToUpper ((parseInstruction instruction).currency.getD [])) dAcc cAcc false := by
  have h2' : jsToUpper ((parseInstruction instruction).currency.getD [])
      ∈ SUPPORTED_CURRENCIES := by simpa using h2
  have hic' : jsToUpper ((parseInstruction instruction).currency.getD [])
      = jsToUpper cAcc.currency := hic.trans hcm
  have h2c : jsToUpper cAcc.currency ∈ SUPPORTED_CURRENCIES := by
    rw [← hic']
    exact h2'
  simp [parseInstructionService, h0, h1, h2', h2c, hd, hc, hne, hcm, hic, hic', hx]

/-- Insufficient funds for immediate execution produce the `AC01` response. -/
theorem finishTransaction_eq_ac01 (accounts : List Account) (parsed : ParsedInstruction)
    (amount : Int) (currencyUpper : List Char) (dAcc cAcc : Account)
    (hb : dAcc.balance < (amount : Rat)) :
    finishTransaction accounts parsed amount currencyUpper dAcc cAcc false =
      failResponse parsed (some amount) (some currencyUpper) StatusCode.AC01
        PaymentMessages.INSUFFICIENT_FUNDS
        (mkSnapshotViews (getAccountsInOrder accounts (parsed.debit_account.getD [])
          (parsed.credit_account.getD []))) := by
  simp [finishTransaction, hb]

/-- A future-dated transaction is scheduled: `AP01`, balances untouched. -/
theorem finishTransaction_eq_ap01 (accounts : List Account) (parsed : ParsedInstruction)
    (amount : Int) (currencyUpper : List Char) (dAcc cAcc : Account) :
    finishTransaction accounts parsed amount currencyUpper dAcc cAcc true =
      { type := parsed.type
        amount := some amount
        currency := some currencyUpper
        debit_account := parsed.debit_account
        credit_account := parsed.credit_account
        execute_by := parsed.execute_by
        status := Status.pending
        status_reason := PaymentMessages.TRANSACTION_PENDING
        status_code := StatusCode.AP01
        accounts := mkSnapshotViews (getAccountsInOrder accounts
          (parsed.debit_account.getD []) (parsed.credit_account.getD [])) } := by
  simp [finishTransaction]

/-- Immediate execution with sufficient funds: `AP00`, balances transferred. -/
theorem finishTransaction_eq_ap00 (accounts : List Account) (parsed : ParsedInstruction)
    (amount : Int) (currencyUpper : List Char) (dAcc cAcc : Account)
    (hb : ¬ dAcc.balance < (amount : Rat)) :
    finishTransaction accounts parsed amount currencyUpper dAcc cAcc false =
      { type := parsed.type
        amount := some amount
        currency := some currencyUpper
        debit_account := parsed.debit_account
        credit_account := parsed.credit_account
        execute_by := parsed.execute_by
        status := Status.successful
        status_reason := PaymentMessages.TRANSACTION_SUCCESSFUL
        status_code := StatusCode.AP00
        accounts := (getAccountsInOrder accounts (parsed.debit_account.getD [])
          (parsed.credit_account.getD [])).map (applyTransfer dAcc.id cAcc.id amount) } := by
  simp [finishTransaction, hb]

/-- Complete case analysis of the service: (A) a tokenization failure with an
empty account view and null identifiers; (B) a post-tokenization failure or a
pending schedule, whose account view is the unmutated snapshot; (C) immediate
successful execution. -/
theorem service_trichotomy (isF : List Char → Bool) (accounts : List Account)
    (instruction : List Char) (r : TransactionResult)
    (hr : r = parseInstructionService isF accounts instruction) :
    (r.status = Status.failed ∧ r.accounts = [] ∧
      r.debit_account = none ∧ r.credit_account = none ∧
      (parseInstruction instruction).parseError = some r.status_code ∧
      (r.status_code = StatusCode.SY01 ∨ r.status_code = StatusCode.SY02 ∨
        r.status_code = StatusCode.SY03))
    ∨ ((parseInstruction instruction).parseError = none ∧
      (r.status = Status.failed ∨ r.status = Status.pending) ∧
      (r.status_code = StatusCode.AM01 ∨ r.status_code = StatusCode.CU02 ∨
        r.status_code = StatusCode.AC03 ∨ r.status_code = StatusCode.AC02 ∨
        r.status_code = StatusCode.CU01 ∨ r.status_code = StatusCode.SY03 ∨
        r.status_code = StatusCode.AC01 ∨ r.status_code = StatusCode.AP01) ∧
      r.debit_account = (parseInstruction instruction).debit_account ∧
      r.credit_account = (parseInstruction instruction).credit_account ∧
      r.accounts = mkSnapshotViews (getAccountsInOrder accounts
        ((parseInstruction instruction).debit_account.getD [])
        ((parseInstruction instruction).credit_account.getD [])))
    ∨ ((parseInstruction instruction).parseError = none ∧
      ∃ dAcc cAcc amt,
        findAccount accounts ((parseInstruction instruction).debit_account.getD [])
          = some dAcc ∧
        findAccount accounts ((parseInstruction instruction).credit_account.getD [])
          = some cAcc ∧
        ¬ dAcc.id = cAcc.id ∧ 0 < amt ∧
        r.status = Status.successful ∧ r.status_code = StatusCode.AP00 ∧
        r.amount = some amt ∧
        r.debit_account = (parseInstruction instruction).debit_account ∧
        r.credit_account = (parseInstruction instruction).credit_account ∧
        r.accounts = (getAccountsInOrder accounts
          ((parseInstruction instruction).debit_account.getD [])
          ((parseInstruction instruction).credit_account.getD [])).map
            (applyTransfer dAcc.id cAcc.id amt)) := by
  rcases parseInstruction_shape instruction with ⟨e, he, hp⟩ | ⟨hp0, _, _, _, _, _, _, _, _, _, _⟩
  · have hpe : (parseInstruction instruction).parseError = some e := by
      rw [hp]
      rfl
    have hfields : (parseInstruction instruction).debit_account = none
        ∧ (parseInstruction instruction).credit_account = none
        ∧ (parseInstruction instruction).type = none
        ∧ (parseInstruction instruction).amount = none
        ∧ (parseInstruction instruction).execute_by = none := by
      rw [hp]
      exact ⟨rfl, rfl, rfl, rfl, rfl⟩
    obtain ⟨hfd, hfc, hft, hfa, hfe⟩ := hfields
    rcases he with rfl | rfl | rfl
    · rw [service_eq_sykw isF accounts instruction _ (Or.inl rfl) hpe] at hr
      subst hr
      exact Or.inl ⟨rfl, rfl, hfd, hfc, hpe, Or.inl rfl⟩
    · rw [service_eq_sykw isF accounts instruction _ (Or.inr rfl) hpe] at hr
      subst hr
      exact Or.inl ⟨rfl, rfl, hfd, hfc, hpe, Or.inr (Or.inl rfl)⟩
    · rw [service_eq_sy03 isF accounts instruction hpe] at hr
      subst hr
      exact Or.inl ⟨rfl, rfl, rfl, rfl, hpe, Or.inr (Or.inr rfl)⟩
  · cases hv : (validateAmount ((parseInstruction instruction).amount.getD [])).valid with
    | false =>
      rw [service_eq_am01 isF accounts instruction hp0 hv] at hr
      subst hr
      exact Or.inr (Or.inl ⟨hp0, Or.inl rfl, Or.inl rfl, rfl, rfl, rfl⟩)
    | true =>
      cases hsc : SUPPORTED_CURRENCIES.contains
          (jsToUpper ((parseInstruction instruction).currency.getD [])) with
      | false =>
        rw [service_eq_cu02 isF accounts instruction hp0 hv hsc] at hr
        subst hr
        exact Or.inr (Or.inl ⟨hp0, Or.inl rfl, Or.inr (Or.inl rfl), rfl, rfl, rfl⟩)
      | true =>
        cases hfd : findAccount accounts ((parseInstruction instruction).debit_account.getD [])
          with
        | none =>
          rw [service_eq_ac03 isF accounts instruction hp0 hv hsc (Or.inl hfd)] at hr
          subst hr
          exact Or.inr (Or.inl ⟨hp0, Or.inl rfl, Or.inr (Or.inr (Or.inl rfl)), rfl, rfl, rfl⟩)
        | some dAcc =>
          cases hfc : findAccount accounts
              ((parseInstruction instruction).credit_account.getD []) with
          | none =>
            rw [service_eq_ac03 isF accounts instruction hp0 hv hsc (Or.inr hfc)] at hr
            subst hr
            exact Or.inr (Or.inl ⟨hp0, Or.inl rfl, Or.inr (Or.inr (Or.inl rfl)), rfl, rfl, rfl⟩)
          | some cAcc =>
            rw [← hfd, ← hfc]
            by_cases hid : dAcc.id = cAcc.id
            · rw [service_eq_ac02 isF accounts instruction dAcc cAcc hp0 hv hsc hfd hfc hid]
                at hr
              subst hr
              exact Or.inr (Or.inl ⟨hp0, Or.inl rfl,
                Or.inr (Or.inr (Or.inr (Or.inl rfl))), rfl, rfl, rfl⟩)
            · by_cases hcm : jsToUpper dAcc.currency = jsToUpper cAcc.currency
              · by_cases hic : jsToUpper ((parseInstruction instruction).currency.getD [])
                    = jsToUpper dAcc.currency
                · -- all pre-date checks pass
                  obtain ⟨amt, hamt, hpos⟩ := validateAmount_valid hv
                  have hgd : (validateAmount
                      ((parseInstruction instruction).amount.getD [])).value.getD 0 = amt := by
                    rw [hamt]
                    rfl
                  have hfin : ∀ pend : Bool,
                      r = finishTransaction accounts (parseInstruction instruction)
                        ((validateAmount
                          ((parseInstruction instruction).amount.getD [])).value.getD 0)
                        (jsToUpper ((parseInstruction instruction).currency.getD []))
                        dAcc cAcc pend →
                      (((parseInstruction instruction).parseError = none ∧
                        (r.status = Status.failed ∨ r.status = Status.pending) ∧
                        (r.status_code = StatusCode.AM01 ∨ r.status_code = StatusCode.CU02 ∨
                          r.status_code = StatusCode.AC03 ∨ r.status_code = StatusCode.AC02 ∨
                          r.status_code = StatusCode.CU01 ∨ r.status_code = StatusCode.SY03 ∨
                          r.status_code = StatusCode.AC01 ∨ r.status_code = StatusCode.AP01) ∧
                        r.debit_account = (parseInstruction instruction).debit_account ∧
                        r.credit_account = (parseInstruction instruction).credit_account ∧
                        r.accounts = mkSnapshotViews (getAccountsInOrder accounts
                          ((parseInstruction instruction).debit_account.getD [])
                          ((parseInstruction instruction).credit_account.getD [])))
                      ∨ ((parseInstruction instruction).parseError = none ∧
                        ∃ dAcc cAcc amt,
                          findAccount accounts
                            ((parseInstruction instruction).debit_account.getD [])
                            = some dAcc ∧
                          findAccount accounts
                            ((parseInstruction instruction).credit_account.getD [])
                            = some cAcc ∧
                          ¬ dAcc.id = cAcc.id ∧ 0 < amt ∧
                          r.status = Status.successful ∧ r.status_code = StatusCode.AP00 ∧
                          r.amount = some amt ∧
                          r.debit_account = (parseInstruction instruction).debit_account ∧
                          r.credit_account = (parseInstruction instruction).credit_account ∧
                          r.accounts = (getAccountsInOrder accounts
                            ((parseInstruction instruction).debit_account.getD [])
                            ((parseInstruction instruction).credit_account.getD [])).map
                              (applyTransfer dAcc.id cAcc.id amt))) := by
                    intro pend hfr
                    cases pend with
                    | true =>
                      rw [finishTransaction_eq_ap01] at hfr
                      subst hfr
                      exact Or.inl ⟨hp0, Or.inr rfl,
                        Or.inr (Or.inr (Or.inr (Or.inr (Or.inr (Or.inr (Or.inr rfl)))))),
                        rfl, rfl, rfl⟩
                    | false =>
                      by_cases hb : dAcc.balance
                          < (((validateAmount
                              ((parseInstruction instruction).amount.getD [])).value.getD 0
                            : Int) : Rat)
                      · rw [finishTransaction_eq_ac01 _ _ _ _ _ _ hb] at hfr
                        subst hfr
                        exact Or.inl ⟨hp0, Or.inl rfl,
                          Or.inr (Or.inr (Or.inr (Or.inr (Or.inr (Or.inr (Or.inl rfl)))))),
                          rfl, rfl, rfl⟩
                      · rw [finishTransaction_eq_ap00 _ _ _ _ _ _ hb] at hfr
                        subst hfr
                        refine Or.inr ⟨hp0, dAcc, cAcc, amt, hfd, hfc, hid, hpos,
                          rfl, rfl, ?_, rfl, rfl, ?_⟩
                        · simp only [hgd]
                        · rw [hgd]
                  cases hx : (parseInstruction instruction).execute_by with
                  | none =>
                    rw [service_eq_finish_nodate isF accounts instruction dAcc cAcc
                      hp0 hv hsc hfd hfc hid hcm hic hx] at hr
                    exact Or.inr (hfin false hr)
                  | some d =>
                    cases hdv : (validateDate d).valid with
                    | false =>
                      rw [service_eq_sy03_date isF accounts instruction dAcc cAcc d
                        hp0 hv hsc hfd hfc hid hcm hic hx hdv] at hr
                      subst hr
                      exact Or.inr (Or.inl ⟨hp0, Or.inl rfl,
                        Or.inr (Or.inr (Or.inr (Or.inr (Or.inr (Or.inl rfl))))),
                        rfl, rfl, rfl⟩)
                    | true =>
                      rw [service_eq_finish_date isF accounts instruction dAcc cAcc d
                        hp0 hv hsc hfd hfc hid hcm hic hx hdv] at hr
                      exact Or.inr (hfin (isF d) hr)
                · rw [service_eq_cu01_instruction isF accounts instruction dAcc cAcc
                    hp0 hv hsc hfd hfc hid hcm hic] at hr
                  subst hr
                  exact Or.inr (Or.inl ⟨hp0, Or.inl rfl,
                    Or.inr (Or.inr (Or.inr (Or.inr (Or.inl rfl)))), rfl, rfl, rfl⟩)
              · rw [service_eq_cu01_accounts isF accounts instruction dAcc cAcc
                  hp0 hv hsc hfd hfc hid hcm] at hr
                subst hr
                exact Or.inr (Or.inl ⟨hp0, Or.inl rfl,
                  Or.inr (Or.inr (Or.inr (Or.inr (Or.inl rfl)))), rfl, rfl, rfl⟩)

/-! ### Counting and summation facts for the success path -/

/-- `applyTransfer` does not change which ids occur where. -/
theorem countP_map_applyTransfer (d c tgt : List Char) (amt : Int) (l : List AccountView) :
    ((l.map (applyTransfer d c amt)).countP fun v => decide (v.id = tgt))
      = l.countP fun v => decide (v.id = tgt) := by
  rw [List.countP_map]
  rfl

/-- Id-count in the resolved view equals the id-count in the input accounts,
for a target id that is one of the two resolved ids. -/
theorem countP_getAccountsInOrder (accounts : List Account) (d c tgt : List Char)
    (htgt : tgt = d ∨ tgt = c) :
    ((getAccountsInOrder accounts d c).countP fun v => decide (v.id = tgt))
      = accounts.countP fun b => decide (b.id = tgt) := by
  induction accounts with
  | nil => rfl
  | cons a rest ih =>
    unfold getAccountsInOrder at *
    rw [List.filterMap_cons, List.countP_cons]
    by_cases hid : a.id = d ∨ a.id = c
    · rw [if_pos hid, List.countP_cons]
      by_cases ht : a.id = tgt
      · simp [ht, ih]
      · simp [ht, ih]
    · rw [if_neg hid]
      have ht : ¬ a.id = tgt := by
        intro hh
        rcases htgt with rfl | rfl
        · exact hid (Or.inl hh)
        · exact hid (Or.inr hh)
      simp [ih, ht]

/-- With pairwise-distinct account ids, a present id is matched by exactly one
account. -/
theorem countP_id_eq_one {accounts : List Account}
    (hn : (accounts.map Account.id).Nodup) {b : Account} (hb : b ∈ accounts) :
    (accounts.countP fun x => decide (x.id = b.id)) = 1 := by
  induction accounts with
  | nil => cases hb
  | cons a rest ih =>
    rw [List.map_cons] at hn
    obtain ⟨hnotmem, hn'⟩ := List.nodup_cons.mp hn
    rw [List.countP_cons]
    rcases List.mem_cons.mp hb with rfl | hbmem
    · have h0 : (rest.countP fun x => decide (x.id = b.id)) = 0 := by
        rw [List.countP_eq_zero]
        intro x hx
        simp only [decide_eq_true_eq]
        intro hxe
        exact hnotmem (hxe ▸ List.mem_map_of_mem Account.id hx)
      simp [h0]
    · have hane : ¬ a.id = b.id := by
        intro he
        exact hnotmem (he ▸ List.mem_map_of_mem Account.id hbmem)
      rw [ih hn' hbmem]
      simp [hane]

/-- Balance sum after the transfer map: each credit-id entry gains `amt`, each
debit-id entry loses it. -/
theorem sum_balance_map_applyTransfer (d c : List Char) (hne : ¬ d = c) (amt : Int)
    (l : List AccountView) :
    (((l.map (applyTransfer d c amt)).map fun v => v.balance).sum : Rat)
      = ((l.map fun v => v.balance).sum : Rat)
        + (amt : Rat) * (l.countP fun v => decide (v.id = c))
        - (amt : Rat) * (l.countP fun v => decide (v.id = d)) := by
  induction l with
  | nil => simp
  | cons v rest ih =>
    rw [List.map_cons, List.map_cons, List.sum_cons, List.map_cons, List.sum_cons,
      List.countP_cons, List.countP_cons, ih]
    by_cases hd : v.id = d
    · have hc : ¬ v.id = c := fun hcc => hne (hd ▸ hcc)
      simp only [applyTransfer, if_pos hd, hd, hc, decide_eq_true_eq, if_false]
      simp [hne]
      ring
    · by_cases hc : v.id = c
      · have hcd : ¬ c = d := fun h => hne h.symm
        simp [applyTransfer, hc, hcd]
        ring
      · simp [applyTransfer, hd, hc]
        ring

/-- `balance_before` sum after the transfer map is the pre-transfer balance
sum. -/
theorem sum_balance_before_map_applyTransfer (d c : List Char) (amt : Int)
    (l : List AccountView) :
    (((l.map (applyTransfer d c amt)).map fun v => v.balance_before).sum : Rat)
      = ((l.map fun v => v.balance).sum : Rat) := by
  induction l with
  | nil => rfl
  | cons v rest ih =>
    rw [List.map_cons, List.map_cons, List.sum_cons, List.map_cons, List.sum_cons, ih]
    rfl

/-! ### Validator characterizations -/

/-- Searching for a single character finds nothing iff it is absent. -/
theorem jsIndexOfAux_singleton (c : Char) :
    ∀ (s : List Char) (i : Nat), (jsIndexOfAux [c] s i = -1 ↔ c ∉ s) := by
  intro s
  induction s with
  | nil =>
    intro i
    simp [jsIndexOfAux]
  | cons d rest ih =>
    intro i
    rw [jsIndexOfAux]
    by_cases hcd : c = d
    · have hpre : [c].isPrefixOf (d :: rest) = true := by
        simp [List.isPrefixOf, hcd]
      rw [if_pos hpre]
      constructor
      · intro h
        exact absurd h (by omega)
      · intro h
        exact absurd (hcd ▸ List.mem_cons_self c rest) h
    · have hpre : ¬ [c].isPrefixOf (d :: rest) = true := by
        simp [List.isPrefixOf, hcd]
      rw [if_neg hpre, ih (i + 1)]
      simp [hcd]

/-- `indexOf` of a one-character needle is `-1` iff the character is absent. -/
theorem jsIndexOf_singleton (c : Char) (s : List Char) :
    jsIndexOf [c] s = -1 ↔ c ∉ s :=
  jsIndexOfAux_singleton c s 0

/-- `validateAmount` accepts exactly the canonical positive decimal integers. -/
theorem validateAmount_eq_true_iff (s : List Char) (n : Int) :
    validateAmount s = { valid := true, value := some n } ↔
      (s ≠ [] ∧ ('-') ∉ s ∧ ('.') ∉ s ∧ jsParseInt s = some n ∧ 0 < n
        ∧ jsIntToString n = s) := by
  constructor
  · intro h
    unfold validateAmount at h
    repeat' split at h
    all_goals first
    | exact Bool.noConfusion (congrArg AmountValidation.valid h)
    | (rename_i h1 h2 h3 opt m heqq hle hstr
       have hmn : m = n := by
         have hv := congrArg AmountValidation.value h
         simpa using hv
       subst hmn
       refine ⟨h1, ?_, ?_, heqq, by omega, not_not.mp hstr⟩
       · exact (jsIndexOf_singleton _ _).mp (not_not.mp h2)
       · exact (jsIndexOf_singleton _ _).mp (not_not.mp h3))
  · rintro ⟨h1, h2, h3, h4, h5, h6⟩
    have hpos : ¬ n ≤ 0 := by omega
    unfold validateAmount
    rw [if_neg h1]
    rw [if_neg (not_not_intro ((jsIndexOf_singleton _ _).mpr h2))]
    rw [if_neg (not_not_intro ((jsIndexOf_singleton _ _).mpr h3))]
    rw [h4]
    simp [hpos, h6]

/-- `charAt` returns the one-character slice at a position. -/
theorem jsCharAt_eq_singleton (s : List Char) (i : Nat) (c : Char) :
    jsCharAt s i = [c] ↔ s[i]? = some c := by
  unfold jsCharAt
  rw [← List.head?_drop]
  generalize s.drop i = t
  cases t with
  | nil => simp
  | cons x rest => simp

/-- `validateDate` accepts exactly the ten-character dash-separated strings
whose three fields parse with month in `[1,12]` and day in `[1,31]`. -/
theorem validateDate_valid_iff (s : List Char) :
    (validateDate s).valid = true ↔
      (s.length = 10 ∧ s[4]? = some ('-') ∧ s[7]? = some ('-') ∧
        (∃ y, jsParseInt (jsSubstring s 0 4) = some y) ∧
        (∃ m, jsParseInt (jsSubstring s 5 7) = some m ∧ 1 ≤ m ∧ m ≤ 12) ∧
        (∃ d, jsParseInt (jsSubstring s 8 10) = some d ∧ 1 ≤ d ∧ d ≤ 31)) := by
  constructor
  · intro h
    simp only [validateDate] at h
    by_cases c1 : s = []
    · rw [if_pos c1] at h
      exact Bool.noConfusion h
    rw [if_neg c1] at h
    by_cases c2 : s.length ≠ 10
    · rw [if_pos c2] at h
      exact Bool.noConfusion h
    rw [if_neg c2] at h
    by_cases c3 : jsCharAt s 4 ≠ ['-'] ∨ jsCharAt s 7 ≠ ['-']
    · rw [if_pos c3] at h
      exact Bool.noConfusion h
    rw [if_neg c3] at h
    push_neg at c3
    split at h
    · rename_i y m d hy hm hd
      by_cases c4 : m < 1 ∨ m > 12 ∨ d < 1 ∨ d > 31
      · rw [if_pos c4] at h
        exact Bool.noConfusion h
      push_neg at c4
      refine ⟨not_not.mp c2, ?_, ?_, ⟨y, hy⟩, ⟨m, hm, ?_, ?_⟩, ⟨d, hd, ?_, ?_⟩⟩
      · exact (jsCharAt_eq_singleton s 4 _).mp c3.1
      · exact (jsCharAt_eq_singleton s 7 _).mp c3.2
      all_goals omega
    · exact Bool.noConfusion h
  · rintro ⟨h1, h2, h3, ⟨y, hy⟩, ⟨m, hm, hm1, hm2⟩, ⟨d, hd, hd1, hd2⟩⟩
    have hnil : ¬ s = [] := by
      intro hh
      rw [hh] at h1
      exact absurd h1 (by simp)
    have hrange : ¬ (m < 1 ∨ m > 12 ∨ d < 1 ∨ d > 31) := by omega
    simp only [validateDate]
    rw [if_neg hnil, if_neg (not_not_intro h1)]
    rw [if_neg (by
      simp only [not_or, not_not]
      exact ⟨(jsCharAt_eq_singleton s 4 _).mpr h2, (jsCharAt_eq_singleton s 7 _).mpr h3⟩)]
    rw [hy, hm, hd]
    simp [hrange]

/-! ### Claim theorems -/

/-- C4: `validateAmount` returns `{valid: true, value: n}` iff the input is
non-empty, contains no `-` and no `.`, parses as a base-10 integer `n > 0`,
and converting `n` back to a string reproduces the input exactly; otherwise it
returns `{valid: false, value: null}`.  In particular `"007"`, `"12.5"`,
`"-3"`, `""`, `"+5"` are rejected and `"500"` yields value `500`. -/
theorem payment_C4_validateAmount_contract :
    (∀ (s : List Char) (n : Int),
      validateAmount s = { valid := true, value := some n } ↔
        (s ≠ [] ∧ ('-') ∉ s ∧ ('.') ∉ s ∧ jsParseInt s = some n ∧ 0 < n
          ∧ jsIntToString n = s)) ∧
    (∀ s : List Char, validateAmount s = { valid := false, value := none }
        ∨ ∃ n : Int, validateAmount s = { valid := true, value := some n }) ∧
    validateAmount ((r"007").toList) = { valid := false, value := none } ∧
    validateAmount ((r"12.5").toList) = { valid := false, value := none } ∧
    validateAmount ((r"-3").toList) = { valid := false, value := none } ∧
    validateAmount [] = { valid := false, value := none } ∧
    validateAmount ((r"+5").toList) = { valid := false, value := none } ∧
    validateAmount ((r"500").toList) = { valid := true, value := some 500 } := by
  refine ⟨validateAmount_eq_true_iff, ?_, by decide, by decide, by decide, by decide,
    by decide, by decide⟩
  intro s
  rcases validateAmount_shape s with hs | ⟨n, _, hs⟩
  · exact Or.inl hs
  · exact Or.inr ⟨n, hs⟩

/-- C9: `validateDate` accepts iff the input is exactly 10 characters, has a
literal `-` at indices 4 and 7, the year/month/day substrings each parse as
integers, the month is in `[1,12]` and the day is in `[1,31]`; no
month-specific day-count or leap-year check is performed, so `"2025-02-31"`
is accepted. -/
theorem payment_C9_validateDate_contract :
    (∀ s : List Char, (validateDate s).valid = true ↔
      (s.length = 10 ∧ s[4]? = some ('-') ∧ s[7]? = some ('-') ∧
        (∃ y, jsParseInt (jsSubstring s 0 4) = some y) ∧
        (∃ m, jsParseInt (jsSubstring s 5 7) = some m ∧ 1 ≤ m ∧ m ≤ 12) ∧
        (∃ d, jsParseInt (jsSubstring s 8 10) = some d ∧ 1 ≤ d ∧ d ≤ 31))) ∧
    (validateDate ((r"2025-02-31").toList)).valid = true := by
  exact ⟨validateDate_valid_iff, by decide⟩

/-- C8: in a DEBIT-shaped instruction where both anchors `from account` and
`for credit to account` are present but `from account` starts at or after
`for credit to account`, the parser returns exactly the SY02 record — never
SY01 and never a successful parse. -/
theorem payment_C8_keyword_order_swap (instruction : List Char)
    (h1 : kwDebit.isPrefixOf (jsTrim (jsToLower instruction)) = true)
    (h2 : jsIndexOf kwFromAccount (jsTrim (jsToLower instruction)) ≠ -1)
    (h3 : jsIndexOf kwForCredit (jsTrim (jsToLower instruction)) ≠ -1)
    (h4 : jsIndexOf kwForCredit (jsTrim (jsToLower instruction))
        ≤ jsIndexOf kwFromAccount (jsTrim (jsToLower instruction))) :
    parseInstruction instruction = parseErrorRecord StatusCode.SY02 := by
  have h5 : jsIndexOf kwDebit (jsTrim (jsToLower instruction))
        ≥ jsIndexOf kwFromAccount (jsTrim (jsToLower instruction))
      ∨ jsIndexOf kwFromAccount (jsTrim (jsToLower instruction))
        ≥ jsIndexOf kwForCredit (jsTrim (jsToLower instruction)) := Or.inr h4
  simp only [parseInstruction]
  rw [if_neg (by simp [h1])]
  rw [if_pos h1]
  rw [if_neg (by simp [h2, h3])]
  rw [if_pos h5]

/-- Witness for C8 at the concrete swapped instruction
`"debit 500 ngn for credit to account a2 from account a1"`. -/
theorem payment_C8_witness :
    parseInstruction ((r"debit 500 ngn for credit to account a2 from account a1").toList)
      = parseErrorRecord StatusCode.SY02 :=
  payment_C8_keyword_order_swap
    ((r"debit 500 ngn for credit to account a2 from account a1").toList)
    (by decide) (by decide) (by decide) (by decide)

/-- C2: whenever the result is `failed` (any failing stage) or `pending`
(future-dated success), every emitted account has `balance_before == balance`:
no balance mutation is visible outside the successful case. -/
theorem payment_C2_no_mutation_on_failure_or_pending (isF : List Char → Bool)
    (accounts : List Account) (instruction : List Char) (r : TransactionResult)
    (hr : r = parseInstructionService isF accounts instruction)
    (h : r.status = Status.failed ∨ r.status = Status.pending) :
    ∀ v ∈ r.accounts, v.balance_before = v.balance := by
  rcases service_trichotomy isF accounts instruction r hr with
    ⟨_, hacc, _⟩ | ⟨_, _, _, _, _, hacc⟩ |
    ⟨_, dAcc, cAcc, amt, _, _, _, _, hst, _⟩
  · rw [hacc]
    intro v hv
    cases hv
  · rw [hacc]
    intro v hv
    exact mkSnapshotViews_balance_before hv
  · rcases h with h | h <;> rw [hst] at h <;> cases h

/-- Witness for C2 at a concrete AC01 failure with two listed accounts: the
emitted view of account `a1` has `balance_before = balance`. -/
theorem payment_C2_witness :
    ({ id := (r"a1").toList, balance := 100, balance_before := 100
       currency := (r"NGN").toList } : AccountView).balance_before
      = ({ id := (r"a1").toList, balance := 100, balance_before := 100
           currency := (r"NGN").toList } : AccountView).balance :=
  payment_C2_no_mutation_on_failure_or_pending (fun _ => false)
    [{ id := (r"a1").toList, balance := 100, currency := (r"NGN").toList },
     { id := (r"a2").toList, balance := 200, currency := (r"NGN").toList }]
    ((r"debit 500 ngn from account a1 for credit to account a2").toList)
    _ rfl (Or.inl (by decide)) _ (by decide)

/-- C5 (counterexample to the claim as stated): an instruction that passes all
checks up to the date but carries an invalid date token yields status_code
SY03 with a NON-empty accounts list. -/
theorem payment_C5_counterexample :
    (parseInstructionService (fun _ => false)
        [{ id := (r"a1").toList, balance := 1000, currency := (r"NGN").toList },
         { id := (r"a2").toList, balance := 200, currency := (r"NGN").toList }]
        ((r"debit 500 ngn from account a1 for credit to account a2 on 2025-13-01").toList)
      ).status_code = StatusCode.SY03
    ∧ (parseInstructionService (fun _ => false)
        [{ id := (r"a1").toList, balance := 1000, currency := (r"NGN").toList },
         { id := (r"a2").toList, balance := 200, currency := (r"NGN").toList }]
        ((r"debit 500 ngn from account a1 for credit to account a2 on 2025-13-01").toList)
      ).accounts ≠ [] := by
  decide

/-- C5 (amended): the accounts list is empty for status_code SY01 and SY02,
and for SY03 when the SY03 came from tokenization (`parseError`); an SY03
arising from an invalid date token instead reports the resolved accounts. -/
theorem payment_C5_amended_empty_accounts (isF : List Char → Bool)
    (accounts : List Account) (instruction : List Char) (r : TransactionResult)
    (hr : r = parseInstructionService isF accounts instruction) :
    (r.status_code = StatusCode.SY01 → r.accounts = []) ∧
    (r.status_code = StatusCode.SY02 → r.accounts = []) ∧
    ((parseInstruction instruction).parseError = some StatusCode.SY03 →
      r.accounts = []) := by
  rcases service_trichotomy isF accounts instruction r hr with
    ⟨_, hacc, _⟩ | ⟨hpe, _, hcode, _, _, hacc⟩ |
    ⟨hpe, dAcc, cAcc, amt, _, _, _, _, _, hcode, _⟩
  · exact ⟨fun _ => hacc, fun _ => hacc, fun _ => hacc⟩
  · refine ⟨?_, ?_, ?_⟩
    · intro hc
      rcases hcode with h | h | h | h | h | h | h | h <;> simp [hc] at h
    · intro hc
      rcases hcode with h | h | h | h | h | h | h | h <;> simp [hc] at h
    · intro hc
      rw [hpe] at hc
      cases hc
  · refine ⟨?_, ?_, ?_⟩
    · intro hc
      rw [hc] at hcode
      cases hcode
    · intro hc
      rw [hc] at hcode
      cases hcode
    · intro hc
      rw [hpe] at hc
      cases hc

/-- Witness for the amended C5 at a concrete SY01-producing instruction. -/
theorem payment_C5_witness :
    (parseInstructionService (fun _ => false)
        [{ id := (r"a1").toList, balance := 100, currency := (r"NGN").toList }]
        ((r"debit 500 ngn from account a1").toList)).accounts = [] :=
  (payment_C5_amended_empty_accounts (fun _ => false)
    [{ id := (r"a1").toList, balance := 100, currency := (r"NGN").toList }]
    ((r"debit 500 ngn from account a1").toList) _ rfl).1 (by decide)

/-- The transfer map does not change the id sequence. -/
theorem map_id_map_applyTransfer (d c : List Char) (amt : Int) (l : List AccountView) :
    (l.map (applyTransfer d c amt)).map AccountView.id = l.map AccountView.id := by
  rw [List.map_map]
  rfl

/-- C7: the output accounts list consists of exactly the input accounts whose
id is the resolved debit or credit identifier, in input order, independent of
which identifier is debit and which is credit; e.g. accounts `[x, y, z]` with
an instruction referencing `y` (debit) then `x` (credit) yield ids `[x, y]`. -/
theorem payment_C7_account_order :
    (∀ (isF : List Char → Bool) (accounts : List Account) (instruction : List Char)
      (r : TransactionResult), r = parseInstructionService isF accounts instruction →
      r.accounts.map AccountView.id
        = (accounts.filter fun a =>
            r.debit_account = some a.id ∨ r.credit_account = some a.id).map Account.id) ∧
    (parseInstructionService (fun _ => false)
        [{ id := (r"x").toList, balance := 10, currency := (r"NGN").toList },
         { id := (r"y").toList, balance := 10, currency := (r"NGN").toList },
         { id := (r"z").toList, balance := 10, currency := (r"NGN").toList }]
        ((r"debit 5 ngn from account y for credit to account x").toList)).accounts.map
          AccountView.id
      = [(r"x").toList, (r"y").toList] := by
  refine ⟨?_, by decide⟩
  intro isF accounts instruction r hr
  rcases service_trichotomy isF accounts instruction r hr with
    ⟨_, hacc, hd, hc, _⟩ | ⟨hpe, _, _, hd, hc, hacc⟩ |
    ⟨hpe, dAcc, cAcc, amt, _, _, _, _, _, _, _, hd, hc, hacc⟩
  · rw [hacc, hd, hc]
    simp
  · rcases parseInstruction_shape instruction with ⟨e, _, hprec⟩ |
      ⟨_, a', cu', dtok, ctok, _, _, hdtok, hctok, _, _⟩
    · rw [hprec] at hpe
      exact Option.noConfusion hpe
    · rw [hacc, mkSnapshotViews_ids, getAccountsInOrder_ids, hd, hc, hdtok, hctok]
      simp only [Option.getD_some]
      congr 1
      apply List.filter_congr
      intro a _
      simp [eq_comm]
  · rcases parseInstruction_shape instruction with ⟨e, _, hprec⟩ |
      ⟨_, a', cu', dtok, ctok, _, _, hdtok, hctok, _, _⟩
    · rw [hprec] at hpe
      exact Option.noConfusion hpe
    · rw [hacc, map_id_map_applyTransfer, getAccountsInOrder_ids, hd, hc, hdtok, hctok]
      simp only [Option.getD_some]
      congr 1
      apply List.filter_congr
      intro a _
      simp [eq_comm]

/-- Witness for C7's universally quantified part at a concrete input. -/
theorem payment_C7_witness :
    (parseInstructionService (fun _ => false)
        [{ id := (r"x").toList, balance := 10, currency := (r"NGN").toList },
         { id := (r"y").toList, balance := 10, currency := (r"NGN").toList },
         { id := (r"z").toList, balance := 10, currency := (r"NGN").toList }]
        ((r"debit 5 ngn from account y for credit to account x").toList)).accounts.map
          AccountView.id
      = (([{ id := (r"x").toList, balance := 10, currency := (r"NGN").toList },
           { id := (r"y").toList, balance := 10, currency := (r"NGN").toList },
           { id := (r"z").toList, balance := 10, currency := (r"NGN").toList }]
            : List Account).filter fun a =>
          (parseInstructionService (fun _ => false)
            [{ id := (r"x").toList, balance := 10, currency := (r"NGN").toList },
             { id := (r"y").toList, balance := 10, currency := (r"NGN").toList },
             { id := (r"z").toList, balance := 10, currency := (r"NGN").toList }]
            ((r"debit 5 ngn from account y for credit to account x").toList)).debit_account
              = some a.id
          ∨ (parseInstructionService (fun _ => false)
            [{ id := (r"x").toList, balance := 10, currency := (r"NGN").toList },
             { id := (r"y").toList, balance := 10, currency := (r"NGN").toList },
             { id := (r"z").toList, balance := 10, currency := (r"NGN").toList }]
            ((r"debit 5 ngn from account y for credit to account x").toList)).credit_account
              = some a.id).map Account.id :=
  payment_C7_account_order.1 (fun _ => false)
    [{ id := (r"x").toList, balance := 10, currency := (r"NGN").toList },
     { id := (r"y").toList, balance := 10, currency := (r"NGN").toList },
     { id := (r"z").toList, balance := 10, currency := (r"NGN").toList }]
    ((r"debit 5 ngn from account y for credit to account x").toList) _ rfl

/-- C3: the checks run in a fixed order with fixed precedence — the
status_code returned is that of the earliest failing stage: tokenization
(SY03/SY01/SY02), then amount format (AM01), then currency support (CU02),
then account existence (AC03), then distinctness (AC02), then currency
consistency (CU01), then date validity (SY03), then funds sufficiency
(AC01) — regardless of whether later checks would also fail. -/
theorem payment_C3_stage_precedence (isF : List Char → Bool) (accounts : List Account)
    (instruction : List Char) (r : TransactionResult)
    (hr : r = parseInstructionService isF accounts instruction) :
    (∀ e, (parseInstruction instruction).parseError = some e → r.status_code = e) ∧
    ((parseInstruction instruction).parseError = none →
      (validateAmount ((parseInstruction instruction).amount.getD [])).valid = false →
      r.status_code = StatusCode.AM01) ∧
    ((parseInstruction instruction).parseError = none →
      (validateAmount ((parseInstruction instruction).amount.getD [])).valid = true →
      SUPPORTED_CURRENCIES.contains
        (jsToUpper ((parseInstruction instruction).currency.getD [])) = false →
      r.status_code = StatusCode.CU02) ∧
    ((parseInstruction instruction).parseError = none →
      (validateAmount ((parseInstruction instruction).amount.getD [])).valid = true →
      SUPPORTED_CURRENCIES.contains
        (jsToUpper ((parseInstruction instruction).currency.getD [])) = true →
      (findAccount accounts ((parseInstruction instruction).debit_account.getD []) = none
        ∨ findAccount accounts ((parseInstruction instruction).credit_account.getD [])
          = none) →
      r.status_code = StatusCode.AC03) ∧
    (∀ dAcc cAcc, (parseInstruction instruction).parseError = none →
      (validateAmount ((parseInstruction instruction).amount.getD [])).valid = true →
      SUPPORTED_CURRENCIES.contains
        (jsToUpper ((parseInstruction instruction).currency.getD [])) = true →
      findAccount accounts ((parseInstruction instruction).debit_account.getD [])
        = some dAcc →
      findAccount accounts ((parseInstruction instruction).credit_account.getD [])
        = some cAcc →
      dAcc.id = cAcc.id → r.status_code = StatusCode.AC02) ∧
    (∀ dAcc cAcc, (parseInstruction instruction).parseError = none →
      (validateAmount ((parseInstruction instruction).amount.getD [])).valid = true →
      SUPPORTED_CURRENCIES.contains
        (jsToUpper ((parseInstruction instruction).currency.getD [])) = true →
      findAccount accounts ((parseInstruction instruction).debit_account.getD [])
        = some dAcc →
      findAccount accounts ((parseInstruction instruction).credit_account.getD [])
        = some cAcc →
      ¬ dAcc.id = cAcc.id →
      ¬ jsToUpper dAcc.currency = jsToUpper cAcc.currency →
      r.status_code = StatusCode.CU01) ∧
    (∀ dAcc cAcc, (parseInstruction instruction).parseError = none →
      (validateAmount ((parseInstruction instruction).amount.getD [])).valid = true →
      SUPPORTED_CURRENCIES.contains
        (jsToUpper ((parseInstruction instruction).currency.getD [])) = true →
      findAccount accounts ((parseInstruction instruction).debit_account.getD [])
        = some dAcc →
      findAccount accounts ((parseInstruction instruction).credit_account.getD [])
        = some cAcc →
      ¬ dAcc.id = cAcc.id →
      jsToUpper dAcc.currency = jsToUpper cAcc.currency →
      ¬ jsToUpper ((parseInstruction instruction).currency.getD [])
        = jsToUpper dAcc.currency →
      r.status_code = StatusCode.CU01) ∧
    (∀ dAcc cAcc d, (parseInstruction instruction).parseError = none →
      (validateAmount ((parseInstruction instruction).amount.getD [])).valid = true →
      SUPPORTED_CURRENCIES.contains
        (jsToUpper ((parseInstruction instruction).currency.getD [])) = true →
      findAccount accounts ((parseInstruction instruction).debit_account.getD [])
        = some dAcc →
      findAccount accounts ((parseInstruction instruction).credit_account.getD [])
        = some cAcc →
      ¬ dAcc.id = cAcc.id →
      jsToUpper dAcc.currency = jsToUpper cAcc.currency →
      jsToUpper ((parseInstruction instruction).currency.getD [])
        = jsToUpper dAcc.currency →
      (parseInstruction instruction).execute_by = some d →
      (validateDate d).valid = false →
      r.status_code = StatusCode.SY03) ∧
    (∀ dAcc cAcc, (parseInstruction instruction).parseError = none →
      (validateAmount ((parseInstruction instruction).amount.getD [])).valid = true →
      SUPPORTED_CURRENCIES.contains
        (jsToUpper ((parseInstruction instruction).currency.getD [])) = true →
      findAccount accounts ((parseInstruction instruction).debit_account.getD [])
        = some dAcc →
      findAccount accounts ((parseInstruction instruction).credit_account.getD [])
        = some cAcc →
      ¬ dAcc.id = cAcc.id →
      jsToUpper dAcc.currency = jsToUpper cAcc.currency →
      jsToUpper ((parseInstruction instruction).currency.getD [])
        = jsToUpper dAcc.currency →
      ((parseInstruction instruction).execute_by = none ∨
        ∃ d, (parseInstruction instruction).execute_by = some d ∧
          (validateDate d).valid = true ∧ isF d = false) →
      dAcc.balance < (((validateAmount
          ((parseInstruction instruction).amount.getD [])).value.getD 0 : Int) : Rat) →
      r.status_code = StatusCode.AC01) := by
  refine ⟨?_, ?_, ?_, ?_, ?_, ?_, ?_, ?_, ?_⟩
  · intro e hpe
    rcases parseInstruction_shape instruction with ⟨e', he', hprec⟩ |
      ⟨hp0, _, _, _, _, _, _, _, _, _, _⟩
    · have hee : e' = e := by
        rw [hprec] at hpe
        exact Option.some_injective _ hpe
      subst hee
      rcases he' with rfl | rfl | rfl
      · rw [service_eq_sykw isF accounts instruction _ (Or.inl rfl) hpe] at hr
        rw [hr]
      · rw [service_eq_sykw isF accounts instruction _ (Or.inr rfl) hpe] at hr
        rw [hr]
      · rw [service_eq_sy03 isF accounts instruction hpe] at hr
        rw [hr]
    · rw [hp0] at hpe
      cases hpe
  · intro h0 h1
    rw [service_eq_am01 isF accounts instruction h0 h1] at hr
    rw [hr]
    rfl
  · intro h0 h1 h2
    rw [service_eq_cu02 isF accounts instruction h0 h1 h2] at hr
    rw [hr]
    rfl
  · intro h0 h1 h2 h3
    rw [service_eq_ac03 isF accounts instruction h0 h1 h2 h3] at hr
    rw [hr]
    rfl
  · intro dAcc cAcc h0 h1 h2 hd hc heq
    rw [service_eq_ac02 isF accounts instruction dAcc cAcc h0 h1 h2 hd hc heq] at hr
    rw [hr]
    rfl
  · intro dAcc cAcc h0 h1 h2 hd hc hne hcm
    rw [service_eq_cu01_accounts isF accounts instruction dAcc cAcc h0 h1 h2 hd hc hne hcm]
      at hr
    rw [hr]
    rfl
  · intro dAcc cAcc h0 h1 h2 hd hc hne hcm hic
    rw [service_eq_cu01_instruction isF accounts instruction dAcc cAcc h0 h1 h2 hd hc hne
      hcm hic] at hr
    rw [hr]
    rfl
  · intro dAcc cAcc d h0 h1 h2 hd hc hne hcm hic hx hdv
    rw [service_eq_sy03_date isF accounts instruction dAcc cAcc d h0 h1 h2 hd hc hne hcm
      hic hx hdv] at hr
    rw [hr]
    rfl
  · intro dAcc cAcc h0 h1 h2 hd hc hne hcm hic hnofut hb
    rcases hnofut with hx | ⟨d, hx, hdv, hfut⟩
    · rw [service_eq_finish_nodate isF accounts instruction dAcc cAcc h0 h1 h2 hd hc hne
        hcm hic hx] at hr
      rw [finishTransaction_eq_ac01 _ _ _ _ _ _ hb] at hr
      rw [hr]
      rfl
    · rw [service_eq_finish_date isF accounts instruction dAcc cAcc d h0 h1 h2 hd hc hne
        hcm hic hx hdv, hfut] at hr
      rw [finishTransaction_eq_ac01 _ _ _ _ _ _ hb] at hr
      rw [hr]
      rfl

/-- Witness for C3: an instruction violating the amount rule, the currency
rule and account existence simultaneously fails with the earliest code AM01. -/
theorem payment_C3_witness :
    (parseInstructionService (fun _ => false)
        [{ id := (r"a1").toList, balance := 100, currency := (r"NGN").toList }]
        ((r"debit 12.5 xyz from account nosuch for credit to account nosuch").toList)
      ).status_code = StatusCode.AM01 :=
  (payment_C3_stage_precedence (fun _ => false)
    [{ id := (r"a1").toList, balance := 100, currency := (r"NGN").toList }]
    ((r"debit 12.5 xyz from account nosuch for credit to account nosuch").toList)
    _ rfl).2.1 (by decide) (by decide)

/-- C6: once every check up to currency consistency has passed, a valid
future date yields `pending`/AP01 with the funds check skipped, while no date
(or a valid non-future date) yields AC01 exactly when the debit balance is
below the amount and a successful AP00 execution otherwise. -/
theorem payment_C6_date_and_funds_gate (isF : List Char → Bool) (accounts : List Account)
    (instruction : List Char) (dAcc cAcc : Account) (r : TransactionResult)
    (hr : r = parseInstructionService isF accounts instruction)
    (h0 : (parseInstruction instruction).parseError = none)
    (h1 : (validateAmount ((parseInstruction instruction).amount.getD [])).valid = true)
    (h2 : SUPPORTED_CURRENCIES.contains
        (jsToUpper ((parseInstruction instruction).currency.getD [])) = true)
    (hd : findAccount accounts ((parseInstruction instruction).debit_account.getD [])
        = some dAcc)
    (hc : findAccount accounts ((parseInstruction instruction).credit_account.getD [])
        = some cAcc)
    (hne : ¬ dAcc.id = cAcc.id)
    (hcm : jsToUpper dAcc.currency = jsToUpper cAcc.currency)
    (hic : jsToUpper ((parseInstruction instruction).currency.getD [])
        = jsToUpper dAcc.currency) :
    (∀ d, (parseInstruction instruction).execute_by = some d →
      (validateDate d).valid = true → isF d = true →
      r.status = Status.pending ∧ r.status_code = StatusCode.AP01) ∧
    (((parseInstruction instruction).execute_by = none ∨
        ∃ d, (parseInstruction instruction).execute_by = some d ∧
          (validateDate d).valid = true ∧ isF d = false) →
      ((dAcc.balance < (((validateAmount
            ((parseInstruction instruction).amount.getD [])).value.getD 0 : Int) : Rat) →
          r.status = Status.failed ∧ r.status_code = StatusCode.AC01) ∧
        (¬ dAcc.balance < (((validateAmount
            ((parseInstruction instruction).amount.getD [])).value.getD 0 : Int) : Rat) →
          r.status = Status.successful ∧ r.status_code = StatusCode.AP00))) := by
  constructor
  · intro d hx hdv hfut
    rw [service_eq_finish_date isF accounts instruction dAcc cAcc d h0 h1 h2 hd hc hne
      hcm hic hx hdv, hfut] at hr
    rw [finishTransaction_eq_ap01] at hr
    rw [hr]
    exact ⟨rfl, rfl⟩
  · intro hnofut
    have hfin : r = finishTransaction accounts (parseInstruction instruction)
        ((validateAmount ((parseInstruction instruction).amount.getD [])).value.getD 0)
        (jsToUpper ((parseInstruction instruction).currency.getD [])) dAcc cAcc false := by
      rcases hnofut with hx | ⟨d, hx, hdv, hfut⟩
      · rw [service_eq_finish_nodate isF accounts instruction dAcc cAcc h0 h1 h2 hd hc
          hne hcm hic hx] at hr
        exact hr
      · rw [service_eq_finish_date isF accounts instruction dAcc cAcc d h0 h1 h2 hd hc
          hne hcm hic hx hdv, hfut] at hr
        exact hr
    constructor
    · intro hb
      rw [finishTransaction_eq_ac01 _ _ _ _ _ _ hb] at hfin
      rw [hfin]
      exact ⟨rfl, rfl⟩
    · intro hb
      rw [finishTransaction_eq_ap00 _ _ _ _ _ _ hb] at hfin
      rw [hfin]
      exact ⟨rfl, rfl⟩

/-- Witness for C6: the concrete immediate execution and insufficient-funds
scenarios. -/
theorem payment_C6_witness :
    ((parseInstructionService (fun _ => false)
        [{ id := (r"a1").toList, balance := 1000, currency := (r"NGN").toList },
         { id := (r"a2").toList, balance := 200, currency := (r"NGN").toList }]
        ((r"debit 500 ngn from account a1 for credit to account a2").toList)).status
      = Status.successful
    ∧ (parseInstructionService (fun _ => false)
        [{ id := (r"a1").toList, balance := 1000, currency := (r"NGN").toList },
         { id := (r"a2").toList, balance := 200, currency := (r"NGN").toList }]
        ((r"debit 500 ngn from account a1 for credit to account a2").toList)).status_code
      = StatusCode.AP00) :=
  (payment_C6_date_and_funds_gate (fun _ => false)
    [{ id := (r"a1").toList, balance := 1000, currency := (r"NGN").toList },
     { id := (r"a2").toList, balance := 200, currency := (r"NGN").toList }]
    ((r"debit 500 ngn from account a1 for credit to account a2").toList)
    { id := (r"a1").toList, balance := 1000, currency := (r"NGN").toList }
    { id := (r"a2").toList, balance := 200, currency := (r"NGN").toList }
    _ rfl (by decide) (by decide) (by decide) (by decide) (by decide) (by decide)
    (by decide) (by decide)).2 (Or.inl (by decide)) |>.2 (by decide)

/-- C10: an account whose id contains an ASCII uppercase letter can never be
resolved — the parser lowercases the instruction before extracting
identifiers while `findAccount` compares ids exactly — and a well-formed
instruction naming that id (hence carrying its lowercased form) fails with
AC03 when no other account carries the lowercased id. -/
theorem payment_C10_uppercase_id_unresolvable (isF : List Char → Bool)
    (accounts : List Account) (instruction : List Char) (a : Account)
    (r : TransactionResult)
    (hr : r = parseInstructionService isF accounts instruction)
    (hmem : a ∈ accounts)
    (hupper : ∃ ch ∈ a.id, ch.isUpper = true) :
    (∀ t, (parseInstruction instruction).debit_account = some t →
      findAccount accounts t ≠ some a) ∧
    (∀ t, (parseInstruction instruction).credit_account = some t →
      findAccount accounts t ≠ some a) ∧
    ((parseInstruction instruction).parseError = none →
      (validateAmount ((parseInstruction instruction).amount.getD [])).valid = true →
      SUPPORTED_CURRENCIES.contains
        (jsToUpper ((parseInstruction instruction).currency.getD [])) = true →
      (parseInstruction instruction).debit_account = some (jsToLower a.id) →
      (∀ b ∈ accounts, b ≠ a → b.id ≠ jsToLower a.id) →
      r.status = Status.failed ∧ r.status_code = StatusCode.AC03) := by
  obtain ⟨ch, hch, hu⟩ := hupper
  have hlower : ∀ t : List Char, (∀ c ∈ t, c ∈ jsToLower instruction) →
      findAccount accounts t ≠ some a := by
    intro t hsub hfind
    obtain ⟨_, hid⟩ := findAccount_some hfind
    have hcht : ch ∈ t := hid ▸ hch
    have hflat := mem_jsToLower_not_upper (hsub ch hcht)
    rw [hflat] at hu
    cases hu
  have hanot : a.id ≠ jsToLower a.id := by
    intro he
    have hcht : ch ∈ jsToLower a.id := he ▸ hch
    have hflat := mem_jsToLower_not_upper hcht
    rw [hflat] at hu
    cases hu
  rcases parseInstruction_shape instruction with ⟨e, _, hprec⟩ |
    ⟨_, _, _, dtok, ctok, _, _, hdtok, hctok, hdsub, hcsub⟩
  · refine ⟨?_, ?_, ?_⟩
    · intro t ht
      rw [hprec] at ht
      cases ht
    · intro t ht
      rw [hprec] at ht
      cases ht
    · intro hp0 _ _ _ _
      rw [hprec] at hp0
      cases hp0
  · refine ⟨?_, ?_, ?_⟩
    · intro t ht
      rw [hdtok] at ht
      obtain rfl : dtok = t := Option.some_injective _ ht
      exact hlower _ hdsub
    · intro t ht
      rw [hctok] at ht
      obtain rfl : ctok = t := Option.some_injective _ ht
      exact hlower _ hcsub
    · intro hp0 h1 h2 hdeb h5
      have hnone : findAccount accounts
          ((parseInstruction instruction).debit_account.getD []) = none := by
        rw [hdeb]
        simp only [Option.getD_some]
        apply findAccount_eq_none
        intro b hb
        by_cases hba : b = a
        · rw [hba]
          exact hanot
        · exact h5 b hb hba
      rw [service_eq_ac03 isF accounts instruction hp0 h1 h2 (Or.inl hnone)] at hr
      rw [hr]
      exact ⟨rfl, rfl⟩

/-- Witness for C10: the account with id `"A1"` cannot be resolved, and the
instruction naming `a1` fails with AC03. -/
theorem payment_C10_witness :
    (parseInstructionService (fun _ => false)
        [{ id := ('A') :: (r"1").toList, balance := 100, currency := (r"NGN").toList },
         { id := (r"a2").toList, balance := 100, currency := (r"NGN").toList }]
        ((r"debit 50 ngn from account a1 for credit to account a2").toList)).status
      = Status.failed
    ∧ (parseInstructionService (fun _ => false)
        [{ id := ('A') :: (r"1").toList, balance := 100, currency := (r"NGN").toList },
         { id := (r"a2").toList, balance := 100, currency := (r"NGN").toList }]
        ((r"debit 50 ngn from account a1 for credit to account a2").toList)).status_code
      = StatusCode.AC03 :=
  (payment_C10_uppercase_id_unresolvable (fun _ => false)
    [{ id := ('A') :: (r"1").toList, balance := 100, currency := (r"NGN").toList },
     { id := (r"a2").toList, balance := 100, currency := (r"NGN").toList }]
    ((r"debit 50 ngn from account a1 for credit to account a2").toList)
    { id := ('A') :: (r"1").toList, balance := 100, currency := (r"NGN").toList }
    _ rfl (by decide) (by decide)).2.2 (by decide) (by decide) (by decide) (by decide)
    (by decide)

/-- `applyTransfer` on the debit entry: balance drops by the amount, the
snapshot keeps the old balance. -/
theorem applyTransfer_debit (d c : List Char) (amt : Int) (u : AccountView)
    (hid : u.id = d) :
    (applyTransfer d c amt u).balance = u.balance - (amt : Rat)
      ∧ (applyTransfer d c amt u).balance_before = u.balance := by
  simp [applyTransfer, hid]

/-- `applyTransfer` on the credit entry: balance grows by the amount. -/
theorem applyTransfer_credit (d c : List Char) (amt : Int) (u : AccountView)
    (hnd : ¬ u.id = d) (hid : u.id = c) :
    (applyTransfer d c amt u).balance = u.balance + (amt : Rat)
      ∧ (applyTransfer d c amt u).balance_before = u.balance := by
  have hcd : ¬ c = d := fun h => hnd (hid.trans h)
  simp [applyTransfer, hid, hcd]

/-- C1: on a successful (immediate) execution over accounts with unique ids,
exactly the debit account's balance decreases by the amount and exactly the
credit account's balance increases by it; every entry's `balance_before` is
its input balance, and the listed balances sum to the listed
`balance_before`s. -/
theorem payment_C1_successful_execution (isF : List Char → Bool)
    (accounts : List Account) (instruction : List Char) (r : TransactionResult)
    (hr : r = parseInstructionService isF accounts instruction)
    (hn : (accounts.map Account.id).Nodup)
    (hs : r.status = Status.successful) :
    ∃ (amt : Int) (da ca : List Char), 0 < amt ∧ r.amount = some amt ∧
      r.debit_account = some da ∧ r.credit_account = some ca ∧ ¬ da = ca ∧
      (r.accounts.countP fun v => decide (v.id = da)) = 1 ∧
      (r.accounts.countP fun v => decide (v.id = ca)) = 1 ∧
      (∀ v ∈ r.accounts, v.id = da ∨ v.id = ca) ∧
      (∀ v ∈ r.accounts, v.id = da → v.balance = v.balance_before - (amt : Rat)) ∧
      (∀ v ∈ r.accounts, v.id = ca → v.balance = v.balance_before + (amt : Rat)) ∧
      (∀ v ∈ r.accounts, ∃ b ∈ accounts, b.id = v.id ∧ v.balance_before = b.balance) ∧
      (r.accounts.map fun v => v.balance).sum
        = (r.accounts.map fun v => v.balance_before).sum := by
  rcases service_trichotomy isF accounts instruction r hr with
    ⟨hst, _⟩ | ⟨_, hstor, _⟩ |
    ⟨hpe, dAcc, cAcc, amt, hfd, hfc, hne, hpos, _, _, hamt, hdeq, hceq, hacc⟩
  · rw [hs] at hst
    cases hst
  · rcases hstor with h | h <;> (rw [hs] at h; cases h)
  · rcases parseInstruction_shape instruction with ⟨e, _, hprec⟩ |
      ⟨_, _, _, dtok, ctok, _, _, hdtok, hctok, _, _⟩
    · rw [hprec] at hpe
      cases hpe
    rw [hdtok] at hfd hacc
    rw [hctok] at hfc hacc
    simp only [Option.getD_some] at hfd hfc hacc
    obtain ⟨hdmem, hdid⟩ := findAccount_some hfd
    obtain ⟨hcmem, hcid⟩ := findAccount_some hfc
    have hneid : ¬ dAcc.id = cAcc.id := hne
    refine ⟨amt, dAcc.id, cAcc.id, hpos, hamt, ?_, ?_, hneid, ?_, ?_, ?_, ?_, ?_, ?_, ?_⟩
    · rw [hdeq, hdtok, hdid]
    · rw [hceq, hctok, hcid]
    · rw [hacc, countP_map_applyTransfer,
        countP_getAccountsInOrder accounts dtok ctok dAcc.id (Or.inl hdid)]
      exact countP_id_eq_one hn hdmem
    · rw [hacc, countP_map_applyTransfer,
        countP_getAccountsInOrder accounts dtok ctok cAcc.id (Or.inr hcid)]
      exact countP_id_eq_one hn hcmem
    · rw [hacc]
      intro v hv
      obtain ⟨u, hu, rfl⟩ := List.mem_map.mp hv
      rw [applyTransfer_id]
      obtain ⟨b, _, hbid, rfl⟩ := mem_getAccountsInOrder.mp hu
      rcases hbid with h | h
      · exact Or.inl (show b.id = dAcc.id from h.trans hdid.symm)
      · exact Or.inr (show b.id = cAcc.id from h.trans hcid.symm)
    · rw [hacc]
      intro v hv hvd
      obtain ⟨u, _, rfl⟩ := List.mem_map.mp hv
      rw [applyTransfer_id] at hvd
      obtain ⟨hb1, hb2⟩ := applyTransfer_debit dAcc.id cAcc.id amt u hvd
      rw [hb1, hb2]
    · rw [hacc]
      intro v hv hvc
      obtain ⟨u, _, rfl⟩ := List.mem_map.mp hv
      rw [applyTransfer_id] at hvc
      have hnd : ¬ u.id = dAcc.id := by
        rw [hvc]
        intro hh
        exact hneid hh.symm
      obtain ⟨hb1, hb2⟩ := applyTransfer_credit dAcc.id cAcc.id amt u hnd hvc
      rw [hb1, hb2]
    · rw [hacc]
      intro v hv
      obtain ⟨u, hu, rfl⟩ := List.mem_map.mp hv
      obtain ⟨b, hb, _, rfl⟩ := mem_getAccountsInOrder.mp hu
      exact ⟨b, hb, rfl, rfl⟩
    · rw [hacc, sum_balance_map_applyTransfer dAcc.id cAcc.id hneid amt,
        sum_balance_before_map_applyTransfer,
        countP_getAccountsInOrder accounts dtok ctok dAcc.id (Or.inl hdid),
        countP_getAccountsInOrder accounts dtok ctok cAcc.id (Or.inr hcid),
        countP_id_eq_one hn hdmem, countP_id_eq_one hn hcmem]
      push_cast
      ring

/-- Witness for C1 at the spec's concrete success scenario: the listed
balances sum to the listed pre-state balances. -/
theorem payment_C1_witness :
    ((parseInstructionService (fun _ => false)
        [{ id := (r"a1").toList, balance := 1000, currency := (r"NGN").toList },
         { id := (r"a2").toList, balance := 200, currency := (r"NGN").toList }]
        ((r"debit 500 ngn from account a1 for credit to account a2").toList)).accounts.map
          fun v => v.balance).sum
      = ((parseInstructionService (fun _ => false)
        [{ id := (r"a1").toList, balance := 1000, currency := (r"NGN").toList },
         { id := (r"a2").toList, balance := 200, currency := (r"NGN").toList }]
        ((r"debit 500 ngn from account a1 for credit to account a2").toList)).accounts.map
          fun v => v.balance_before).sum := by
  obtain ⟨amt, da, ca, _, _, _, _, _, _, _, _, _, _, _, h12⟩ :=
    payment_C1_successful_execution (fun _ => false)
      [{ id := (r"a1").toList, balance := 1000, currency := (r"NGN").toList },
       { id := (r"a2").toList, balance := 200, currency := (r"NGN").toList }]
      ((r"debit 500 ngn from account a1 for credit to account a2").toList)
      _ rfl (by decide) (by decide)
  exact h12

end PaymentParser
